import Mathlib

/-!
# KEDA: the Loki scaler and the GCP Secret Manager handler

A shallow embedding of

* `pkg/scalers/loki_scaler.go` (`parseLokiMetadata`, `ExecuteLokiQuery`, `IsActive`), and
* `pkg/scaling/resolver/gcp_secretmanager_handler.go` (`NewGCPSecretManagerHandler`,
  `Initialize`, `Read`).

Go functions returning `(value, error)` become functions into `Except String _`: the string
is the message of the returned error, and the value returned next to a non-nil error
(`nil`, `-1`) is dropped.  A function that can also panic returns an `Outcome`.

Everything the two files call but do not define (the Go standard library, the HTTP
transport, the Google client libraries, other packages of the repository) is a field of a
dependency record (`Deps`, `GCPDeps`) or of the scaler itself (`httpClient`), so general
theorems hold for every behaviour of those callees.  `Go.deps` further down is one
concrete, executable instance used at concrete inputs.  Logging is not modelled.
-/

deriving instance DecidableEq for Except

namespace Keda

/-! ## Go values -/

/-- A Go `float64`: NaN, an infinity, or a finite value.  Finite values are carried as the
rational they denote (both zeros are the rational `0`). -/
inductive Float64 where
  | NaN
  | Inf (neg : Bool)
  | fin (q : ℚ)
  deriving DecidableEq, Repr

/-- Whether a `float64` is neither NaN nor an infinity. -/
def Float64.isFinite : Float64 → Bool
  | .fin _ => true
  | _ => false

/-- The Go comparison `a > b` on `float64`: false as soon as one side is NaN. -/
def Float64.gt : Float64 → Float64 → Bool
  | .NaN, _ => false
  | _, .NaN => false
  | .Inf true, _ => false
  | .Inf false, .Inf false => false
  | .Inf false, _ => true
  | .fin _, .Inf neg => neg
  | .fin a, .fin b => decide (b < a)

/-- A value decoded by `encoding/json` into an `interface{}`. -/
inductive JSONValue where
  | null
  | bool (b : Bool)
  | number (f : Float64)
  | string (s : String)
  | array (elems : List JSONValue)
  | object (fields : List (String × JSONValue))

/-- The name Go prints for the dynamic type of a decoded value. -/
def JSONValue.goType : JSONValue → String
  | .null => "nil"
  | .bool _ => "bool"
  | .number _ => "float64"
  | .string _ => "string"
  | .array _ => "[]interface {}"
  | .object _ => "map[string]interface {}"

/-- How a Go call ends when it may also panic: with a value and a nil error, with a
non-nil error, or with a run-time panic. -/
inductive Outcome (α : Type) where
  | ok (val : α)
  | error (msg : String)
  | panic (msg : String)
  deriving DecidableEq, Repr

/-- A Go `context.Context`, as far as the code tells contexts apart: the background
context, or a context handed in by a caller. -/
inductive Context where
  | Background
  | ofCaller (id : Nat)
  deriving DecidableEq, Repr

/-- A Go `map[string]string`; `m[k]` is `List.lookup k m`. -/
abbrev StringMap := List (String × String)

/-! ## `net/url` and `net/http` records -/

/-- The fields of a Go `url.URL` (user information is left out). -/
structure URL where
  Scheme : String := ""
  Opaque : String := ""
  Host : String := ""
  Path : String := ""
  RawPath : String := ""
  OmitHost : Bool := false
  ForceQuery : Bool := false
  RawQuery : String := ""
  Fragment : String := ""
  deriving DecidableEq, Repr

/-- An outgoing `http.Request`: its context, method, URL, the headers added with
`Header.Add`, and the credentials set with `SetBasicAuth`. -/
structure Request where
  ctx : Context
  Method : String
  URL : URL
  Header : List (String × String) := []
  BasicAuth : Option (String × String) := none
  deriving DecidableEq, Repr

/-- An `http.Response`: its status code and what `io.ReadAll(r.Body)` returns. -/
structure Response where
  StatusCode : Int
  Body : Except String String
  deriving DecidableEq, Repr

/-! ## The Loki scaler's data -/

/-- Go's `authentication.AuthMeta`, restricted to the fields the scaler reads. -/
structure AuthMeta where
  EnableBasicAuth : Bool := false
  Username : String := ""
  Password : String := ""
  deriving DecidableEq, Repr

/-- Go's `ScalerConfig`, restricted to the fields `parseLokiMetadata` reads. -/
structure ScalerConfig where
  TriggerMetadata : StringMap := []
  AuthParams : StringMap := []
  ScalerIndex : Int := 0
  deriving DecidableEq, Repr

/-- Go's `lokiMetadata`; the defaults are Go's zero values. -/
structure lokiMetadata where
  serverAddress : String := ""
  metricName : String := ""
  query : String := ""
  threshold : Float64 := .fin 0
  activationThreshold : Float64 := .fin 0
  lokiAuth : Option AuthMeta := none
  scalerIndex : Int := 0
  cortexOrgID : String := ""
  ignoreNullValues : Bool := false
  unsafeSsl : Bool := false
  deriving DecidableEq, Repr

/-- One element of `lokiQueryResultData.Result`. -/
structure lokiQueryResultSeries where
  Value : List JSONValue := []

/-- The `Data` field of `lokiQueryResult`. -/
structure lokiQueryResultData where
  ResultType : String := ""
  Result : List lokiQueryResultSeries := []

/-- Go's `lokiQueryResult`. -/
structure lokiQueryResult where
  Status : String := ""
  Data : lokiQueryResultData := {}

/-- What the Loki scaler calls without defining it. -/
structure Deps where
  /-- Go's `strconv.ParseFloat(s, 64)`. -/
  ParseFloat : String → Except String Float64
  /-- Go's `strconv.Quote`, used in the messages of `strconv` errors. -/
  Quote : String → String
  /-- Go's `url.ParseRequestURI`. -/
  ParseRequestURI : String → Except String URL
  /-- Go's `(*url.URL).String`. -/
  URLString : URL → String
  /-- Go's `http.NewRequestWithContext(ctx, method, url, nil)`. -/
  NewRequestWithContext : Context → String → String → Except String Request
  /-- Go's `url.QueryEscape`. -/
  QueryEscape : String → String
  /-- Go's `json.Unmarshal(b, &result)` for a `lokiQueryResult`. -/
  Unmarshal : String → Except String lokiQueryResult
  /-- The repository's `authentication.GetAuthConfigs(triggerMetadata, authParams)`. -/
  GetAuthConfigs : StringMap → StringMap → Except String (Option AuthMeta)

/-- Go's `lokiScaler`; the HTTP client is the function sending a request. -/
structure lokiScaler where
  metadata : lokiMetadata
  httpClient : Request → Except String Response

/-! ## Constants of `loki_scaler.go` -/

def lokiServerAddress : String := "serverAddress"
def lokiMetricName : String := "metricName"
def lokiQuery : String := "query"
def lokiThreshold : String := "threshold"
def lokiActivationThreshold : String := "activationThreshold"
def lokiNamespace : String := "namespace"
def lokiCortexScopeOrgID : String := "cortexOrgID"
def lokiCortexHeaderKey : String := "X-Scope-OrgID"
def lokiIgnoreNullValues : String := "ignoreNullValues"
def lokiDefaultIgnoreNullValues : Bool := true

/-- Modelled from the spec: the package-level constant `unsafeSsl` is declared in another
file of package `scalers`; it is the configuration key of the insecure-TLS switch. -/
def unsafeSsl : String := "unsafeSsl"

/-! ## `strconv.ParseBool` -/

/-- Go's `strconv.ParseBool`: it accepts 1, t, T, TRUE, true, True, 0, f, F, FALSE,
false, False and reports a syntax error for every other string. -/
def strconv.ParseBool (d : Deps) (str : String) : Except String Bool :=
  if str = "1" ∨ str = "t" ∨ str = "T" ∨ str = "TRUE" ∨ str = "true" ∨ str = "True" then
    .ok true
  else if str = "0" ∨ str = "f" ∨ str = "F" ∨ str = "FALSE" ∨ str = "false"
      ∨ str = "False" then
    .ok false
  else
    .error ("strconv.ParseBool: parsing " ++ d.Quote str ++ ": invalid syntax")

/-! ## `parseLokiMetadata` -/

/-- The Go idiom `val, ok := m[key]; ok && val != ""`: the value under `key` when the key
is present with a non-empty value. -/
def nonEmptyValue (m : StringMap) (key : String) : Option String :=
  match m.lookup key with
  | some val => if val ≠ "" then some val else none
  | none => none

/-- Go's `parseLokiMetadata` (loki_scaler.go, lines 91-167). -/
def parseLokiMetadata (d : Deps) (config : ScalerConfig) : Except String lokiMetadata := do
  let m : lokiMetadata := {}
  let m ← match nonEmptyValue config.TriggerMetadata lokiServerAddress with
    | some val => pure { m with serverAddress := val }
    | none => throw ("no " ++ lokiServerAddress ++ " given")
  let m ← match nonEmptyValue config.TriggerMetadata lokiQuery with
    | some val => pure { m with query := val }
    | none => throw ("no " ++ lokiQuery ++ " given")
  let m ← match nonEmptyValue config.TriggerMetadata lokiMetricName with
    | some val => pure { m with metricName := val }
    | none => throw ("no " ++ lokiMetricName ++ " given")
  let m ← match nonEmptyValue config.TriggerMetadata lokiThreshold with
    | some val =>
      match d.ParseFloat val with
      | .error err => throw ("error parsing " ++ lokiThreshold ++ ": " ++ err)
      | .ok t => pure { m with threshold := t }
    | none => throw ("no " ++ lokiThreshold ++ " given")
  let m := { m with activationThreshold := .fin 0 }
  let m ← match config.TriggerMetadata.lookup lokiActivationThreshold with
    | some val =>
      match d.ParseFloat val with
      | .error err => throw ("activationThreshold parsing error " ++ err)
      | .ok t => pure { m with activationThreshold := t }
    | none => pure m
  let m := match nonEmptyValue config.TriggerMetadata lokiCortexScopeOrgID with
    | some val => { m with cortexOrgID := val }
    | none => m
  let m := { m with ignoreNullValues := lokiDefaultIgnoreNullValues }
  let m ← match nonEmptyValue config.TriggerMetadata lokiIgnoreNullValues with
    | some val =>
      match strconv.ParseBool d val with
      | .error _ => throw ("err incorrect value for ignoreNullValues given: " ++ val
          ++ ", please use true or false")
      | .ok ignoreNullValues => pure { m with ignoreNullValues := ignoreNullValues }
    | none => pure m
  let m := { m with unsafeSsl := false }
  let m ← match nonEmptyValue config.TriggerMetadata unsafeSsl with
    | some val =>
      match strconv.ParseBool d val with
      | .error err => throw ("error parsing " ++ unsafeSsl ++ ": " ++ err)
      | .ok unsafeSslValue => pure { m with unsafeSsl := unsafeSslValue }
    | none => pure m
  let m := { m with scalerIndex := config.ScalerIndex }
  match d.GetAuthConfigs config.TriggerMetadata config.AuthParams with
  | .error err => throw err
  | .ok lokiAuth => pure { m with lokiAuth := lokiAuth }

/-! ## `ExecuteLokiQuery` and `IsActive` -/

/-- Go's `url.Values.Encode` for values whose keys are listed in sorted order: the
escaped `key=value` pairs joined by an ampersand. -/
def url.Values.Encode (d : Deps) (v : List (String × List String)) : String :=
  "&".intercalate
    ((v.map fun kv => kv.2.map fun val => d.QueryEscape kv.1 ++ "=" ++ d.QueryEscape val).flatten)

/-- Lines 199-207 of `ExecuteLokiQuery`: the URL that is queried. -/
def ExecuteLokiQuery.url (d : Deps) (s : lokiScaler) : Except String URL :=
  match d.ParseRequestURI s.metadata.serverAddress with
  | .error err => .error err
  | .ok u =>
    let u := { u with Path := "/loki/api/v1/query" }
    let u := { u with RawQuery := url.Values.Encode d [("query", [s.metadata.query])] }
    .ok u

/-- Whether `c` may occur in the name of an HTTP header field. -/
def http.isTokenChar (c : Char) : Bool :=
  c.isAlphanum || "!#$%&*+-.^_|~".data.contains c || c = Char.ofNat 39 || c = Char.ofNat 96

/-- The letter case of Go's canonical header keys: upper case for the first letter and
for a letter after a hyphen, lower case elsewhere. -/
def http.canonicalCase : Bool → List Char → List Char
  | _, [] => []
  | upper, c :: r =>
    (if upper then c.toUpper else c.toLower) :: http.canonicalCase (c == '-') r

/-- Go's `http.CanonicalHeaderKey`, which `Header.Add` applies to the key: a key made of
header-name characters is put in canonical case, any other key is left as it is. -/
def http.CanonicalHeaderKey (s : String) : String :=
  if s.data.all http.isTokenChar then String.mk (http.canonicalCase true s.data) else s

/-- Lines 199-220 of `ExecuteLokiQuery`: the request that is sent. -/
def ExecuteLokiQuery.request (d : Deps) (s : lokiScaler) : Except String Request :=
  match ExecuteLokiQuery.url d s with
  | .error err => .error err
  | .ok u =>
    match d.NewRequestWithContext Context.Background "GET" (d.URLString u) with
    | .error err => .error err
    | .ok req =>
      let req := match s.metadata.lokiAuth with
        | some lokiAuth =>
          if lokiAuth.EnableBasicAuth then
            { req with BasicAuth := some (lokiAuth.Username, lokiAuth.Password) }
          else req
        | none => req
      let req := if s.metadata.cortexOrgID ≠ "" then
          { req with Header := req.Header
              ++ [(http.CanonicalHeaderKey lokiCortexHeaderKey, s.metadata.cortexOrgID)] }
        else req
      .ok req

/-- Lines 245-277 of `ExecuteLokiQuery`: the reading taken from a decoded result.  An
index out of range and a failed type assertion `val.(string)` panic, as in Go. -/
def ExecuteLokiQuery.reading (d : Deps) (s : lokiScaler) (result : lokiQueryResult) :
    Outcome Float64 :=
  let v : Float64 := .fin (-1)
  if result.Data.Result.length = 0 then
    if s.metadata.ignoreNullValues then .ok (.fin 0)
    else .error ("loki metrics " ++ s.metadata.metricName
      ++ " target may be lost, the result is empty")
  else if result.Data.Result.length > 1 then
    .error ("loki query " ++ s.metadata.query ++ " returned multiple elements")
  else
    match result.Data.Result.get? 0 with
    | none => .panic "runtime error: index out of range"
    | some r0 =>
      let valueLen := r0.Value.length
      if valueLen = 0 then
        if s.metadata.ignoreNullValues then .ok (.fin 0)
        else .error ("loki metrics " ++ s.metadata.metricName
          ++ " target may be lost, the value list is empty")
      else if valueLen < 2 then
        .error ("loki query " ++ s.metadata.query ++ " didn't return enough values")
      else
        match r0.Value.get? 1 with
        | none => .panic "runtime error: index out of range"
        | some .null => .ok v
        | some (.string str) =>
          match d.ParseFloat str with
          | .error err => .error err
          | .ok v => .ok v
        | some val =>
          .panic ("interface conversion: interface {} is " ++ val.goType ++ ", not string")

set_option linter.unusedVariables false in
/-- Go's `(*lokiScaler).ExecuteLokiQuery` (loki_scaler.go, lines 197-278). -/
def ExecuteLokiQuery (d : Deps) (s : lokiScaler) (ctx : Context) : Outcome Float64 :=
  match ExecuteLokiQuery.request d s with
  | .error err => .error err
  | .ok req =>
    match s.httpClient req with
    | .error err => .error err
    | .ok r =>
      match r.Body with
      | .error err => .error err
      | .ok b =>
        if ¬ (r.StatusCode ≥ 200 ∧ r.StatusCode ≤ 299) then
          .error ("loki query api returned error. status: " ++ toString r.StatusCode
            ++ " response: " ++ b)
        else
          match d.Unmarshal b with
          | .error err => .error err
          | .ok result => ExecuteLokiQuery.reading d s result

/-- Go's `(*lokiScaler).IsActive` (loki_scaler.go, lines 169-177). -/
def IsActive (d : Deps) (s : lokiScaler) (ctx : Context) : Outcome Bool :=
  match ExecuteLokiQuery d s ctx with
  | .error err => .error err
  | .panic msg => .panic msg
  | .ok val => .ok (val.gt s.metadata.activationThreshold)

/-! ## The GCP Secret Manager handler -/

/-- Modelled from the spec: the provider token of "no pod identity", a constant declared
in `apis/keda/v1alpha1`, outside the two files. -/
def PodIdentityProviderNone : String := "none"

/-- Modelled from the spec: the provider token of the GCP (ambient, workload-identity)
pod identity, a constant declared in `apis/keda/v1alpha1`, outside the two files. -/
def PodIdentityProviderGCP : String := "gcp"

/-- Go's `kedav1alpha1.AuthPodIdentity`, restricted to the field `Initialize` reads. -/
structure AuthPodIdentity where
  Provider : String := ""
  deriving DecidableEq, Repr

/-- A reference to one key of a named secret. -/
structure SecretKeyRef where
  Name : String := ""
  Key : String := ""
  deriving DecidableEq, Repr

/-- The `ValueFrom` part of a client secret. -/
structure ValueFromSecret where
  SecretKeyRef : SecretKeyRef := {}
  deriving DecidableEq, Repr

/-- The `ClientSecret` part of the credentials. -/
structure GCPSecretmanagerClientSecret where
  ValueFrom : ValueFromSecret := {}
  deriving DecidableEq, Repr

/-- Go's `kedav1alpha1.GCPCredentials`. -/
structure GCPCredentials where
  ClientSecret : GCPSecretmanagerClientSecret := {}
  deriving DecidableEq, Repr

/-- Go's `kedav1alpha1.GCPSecretManager`, restricted to the fields the handler reads;
the two pointer fields are options. -/
structure GCPSecretManager where
  GCPProjectID : String := ""
  PodIdentity : Option AuthPodIdentity := none
  Credentials : Option GCPCredentials := none
  deriving DecidableEq, Repr

/-- A `*secretmanager.Client`, an opaque handle. -/
structure SecretManagerClient where
  id : Nat
  deriving DecidableEq, Repr

/-- A `*google.Credentials`, an opaque handle. -/
structure GoogleCredentials where
  id : Nat
  deriving DecidableEq, Repr

/-- Go's `GCPSecretManagerHandler`; a nil client is `none`. -/
structure GCPSecretManagerHandler where
  gcpSecretsManager : GCPSecretManager
  gcpSecretsManagerClient : Option SecretManagerClient := none
  ctx : Context
  gcpProjectID : String := ""
  deriving DecidableEq, Repr

/-- What `Initialize` calls without defining it. -/
structure GCPDeps where
  /-- The repository's `resolveAuthSecret(ctx, client, logger, name, namespace, key,
  secretsLister)`; the cluster it reads is part of the function. -/
  resolveAuthSecret : Context → String → String → String → String
  /-- Go's `json.Unmarshal` into `struct { ID string }` with tag `project_id`: the `ID`
  decoded, or the error. -/
  UnmarshalProjectID : String → Except String String
  /-- Go's `google.CredentialsFromJSON(ctx, json, scopes...)`. -/
  CredentialsFromJSON : Context → String → Except String GoogleCredentials
  /-- Go's `secretmanager.NewClient(ctx, opts...)`, with the credentials option or
  without it: both results, the client and the error. -/
  NewClient : Context → Option GoogleCredentials → Option SecretManagerClient × Option String
  /-- Go's `fmt` rendering of a `*AuthPodIdentity` under the verb `%s`. -/
  formatPodIdentity : AuthPodIdentity → String

/-- Go's `NewGCPSecretManagerHandler` (gcp_secretmanager_handler.go, lines 44-49). -/
def NewGCPSecretManagerHandler (v : GCPSecretManager) (ctx : Context) :
    GCPSecretManagerHandler :=
  { gcpSecretsManager := v, ctx := ctx }

/-- Go's `(*GCPSecretManagerHandler).Initialize` (gcp_secretmanager_handler.go, lines
52-108): the handler after the call and the returned error (`none` is nil). -/
def GCPSecretManagerHandler.Initialize (g : GCPDeps) (vh : GCPSecretManagerHandler)
    (triggerNamespace : String) : GCPSecretManagerHandler × Option String :=
  let err : Option String := none
  let podIdentity : AuthPodIdentity :=
    match vh.gcpSecretsManager.PodIdentity with
    | some p => p
    | none => {}
  if podIdentity.Provider = "" ∨ podIdentity.Provider = PodIdentityProviderNone then
    let missingErr := "clientSecret is expected when not using a pod identity provider"
    match vh.gcpSecretsManager.Credentials with
    | none => (vh, some missingErr)
    | some credentials =>
      let clientSecretName := credentials.ClientSecret.ValueFrom.SecretKeyRef.Name
      let clientSecretKey := credentials.ClientSecret.ValueFrom.SecretKeyRef.Key
      let clientSecret :=
        g.resolveAuthSecret vh.ctx clientSecretName triggerNamespace clientSecretKey
      if clientSecret = "" then (vh, some missingErr)
      else
        match g.UnmarshalProjectID clientSecret with
        | .error e => (vh, some ("failed to unmarshal json key, " ++ e))
        | .ok projectID =>
          let vh := { vh with gcpProjectID := projectID }
          match g.CredentialsFromJSON vh.ctx clientSecret with
          | .error e => (vh, some ("failed to get credentials from json, " ++ e))
          | .ok gcpCredentials =>
            let (client, err) := g.NewClient vh.ctx (some gcpCredentials)
            let vh := { vh with gcpSecretsManagerClient := client }
            match err with
            | some e => (vh, some ("failed to create secretmanager client, " ++ e))
            | none => (vh, none)
  else if podIdentity.Provider = PodIdentityProviderGCP then
    if vh.gcpProjectID = "" then
      (vh, some ("gcp project id needs to be provided for using the gcp pod identity, "
        ++ (match err with | some e => e | none => "<nil>")))
    else
      let vh := { vh with gcpProjectID := vh.gcpSecretsManager.GCPProjectID }
      let (client, err) := g.NewClient vh.ctx none
      let vh := { vh with gcpSecretsManagerClient := client }
      match err with
      | some e => (vh, some ("failed to create secretmanager client: " ++ e))
      | none => (vh, none)
  else
    (vh, some ("key vault does not support pod identity provider - "
      ++ g.formatPodIdentity podIdentity))

/-! ## `Read` and the CRC-32 checksum -/

/-- Go's `crc32.Castagnoli`, the reversed Castagnoli polynomial. -/
def crc32.Castagnoli : Nat := 0x82f63b78

/-- One of the eight steps that make a table entry in Go's `crc32.simpleMakeTable`. -/
def crc32.step (poly crc : Nat) : Nat :=
  if crc % 2 = 1 then (crc >>> 1) ^^^ poly else crc >>> 1

/-- The entry `i` of the table `crc32.MakeTable(poly)`. -/
def crc32.tableEntry (poly i : Nat) : Nat :=
  Nat.iterate (crc32.step poly) 8 i

/-- Go's `crc32.Checksum(data, crc32.MakeTable(poly))` on 32-bit words: the register
starts at `^0`, takes each byte through the table, and is complemented at the end. -/
def crc32.Checksum (data : List UInt8) (poly : Nat) : Nat :=
  let crc := data.foldl
    (fun crc v => crc32.tableEntry poly ((crc % 256) ^^^ v.toNat) ^^^ (crc >>> 8))
    (2 ^ 32 - 1)
  crc ^^^ (2 ^ 32 - 1)

/-- Go's `secretmanagerpb.SecretPayload`: the data and the optional `int64` checksum. -/
structure SecretPayload where
  Data : List UInt8 := []
  DataCrc32C : Option Int := none
  deriving DecidableEq, Repr

/-- Go's `secretmanagerpb.AccessSecretVersionResponse`, restricted to its payload
pointer. -/
structure AccessSecretVersionResponse where
  Payload : Option SecretPayload := none
  deriving DecidableEq, Repr

/-- Go's `(*GCPSecretManagerHandler).Read` (gcp_secretmanager_handler.go, lines 110-127).
`access` is the client's `AccessSecretVersion(ctx, req)` as a function of the client, the
context and the requested name.  The result is the returned pair: the secret, a Go string
given by its bytes, and the error (`none` is nil).  Dereferencing a nil client, payload
or checksum panics. -/
def GCPSecretManagerHandler.Read
    (access : SecretManagerClient → Context → String → Except String AccessSecretVersionResponse)
    (vh : GCPSecretManagerHandler) (secretID secretVersion : String) :
    Outcome (List UInt8 × Option String) :=
  let name := "projects/" ++ vh.gcpProjectID ++ "/secrets/" ++ secretID ++ "/versions/"
    ++ secretVersion
  match vh.gcpSecretsManagerClient with
  | none => .panic "runtime error: invalid memory address or nil pointer dereference"
  | some client =>
    match access client vh.ctx name with
    | .error err => .ok ([], some ("failed to access the secret, " ++ err))
    | .ok result =>
      match result.Payload with
      | none => .panic "runtime error: invalid memory address or nil pointer dereference"
      | some payload =>
        let checksum : Int := (crc32.Checksum payload.Data crc32.Castagnoli : Nat)
        match payload.DataCrc32C with
        | none => .panic "runtime error: invalid memory address or nil pointer dereference"
        | some dataCrc32C =>
          if checksum ≠ dataCrc32C then
            .ok ([], some "secret payload data corruption detected")
          else .ok (payload.Data, none)

/-! ## An executable instance of the dependencies

`Go.deps` follows the Go standard library on the inputs used in the examples below:

* `Go.ParseFloat` reads the special values and decimal literals
  (`[+-]digits[.digits][(e|E)[+-]digits]`).  Hexadecimal literals, digit-separating
  underscores and the rounding of a decimal to the nearest binary64 are outside it.
* `Go.parse`, `Go.URLString` read and print URLs written with letters, digits and
  `-._~/:` before the query, where no percent-escape, user information or bracketed
  host occurs; other strings are reported as errors.
* `Go.QueryEscape` is `url.QueryEscape` on the UTF-8 bytes of its argument.
* JSON decoding is an argument of `Go.deps`: an example states the decoding of its one
  response body with `Go.decodes`.
* `Go.GetAuthConfigs` resolves no authentication for a trigger without `authModes`, and
  the mode `basic` from the `username` and `password` parameters.
-/

namespace Go

/-- Whether `c` is an ASCII decimal digit. -/
def isDigit (c : Char) : Bool := decide ('0' ≤ c ∧ c ≤ '9')

/-- The number written by a list of decimal digits. -/
def digitsValue (cs : List Char) : Nat :=
  cs.foldl (fun n c => 10 * n + (c.toNat - '0'.toNat)) 0

/-- ASCII lower-casing of one character. -/
def lowerASCII (c : Char) : Char :=
  if 'A' ≤ c ∧ c ≤ 'Z' then Char.ofNat (c.toNat + 32) else c

/-- An optional leading sign: whether it is a minus, whether there is one, and the rest. -/
def splitSign : List Char → Bool × Bool × List Char
  | '+' :: r => (false, true, r)
  | '-' :: r => (true, true, r)
  | cs => (false, false, cs)

/-- Go's `strconv.special`, for a string that must be consumed whole: an optionally signed
`inf` or `infinity`, or an unsigned `nan`, in any letter case. -/
def special (cs : List Char) : Option Float64 :=
  let (neg, signed, body) := splitSign cs
  let low := String.mk (body.map lowerASCII)
  if low = "inf" ∨ low = "infinity" then some (.Inf neg)
  else if ¬ signed ∧ low = "nan" then some .NaN
  else none

/-- The exponent part of a decimal literal: nothing, or `e`/`E`, an optional sign and at
least one digit. -/
def parseExponent : List Char → Option Int
  | [] => some 0
  | c :: r =>
    if c = 'e' ∨ c = 'E' then
      let (eneg, _, ds) := splitSign r
      if ds ≠ [] ∧ ds.all isDigit then
        some (if eneg then - (digitsValue ds : Int) else (digitsValue ds : Int))
      else none
    else none

/-- The rational `mant * 10 ^ e`. -/
def scale10 (mant : Nat) (e : Int) : ℚ :=
  if 0 ≤ e then (mant : ℚ) * ((10 ^ e.toNat : Nat) : ℚ)
  else (mant : ℚ) / ((10 ^ (-e).toNat : Nat) : ℚ)

/-- The sign and the magnitude denoted by a decimal literal, or `none` when the string is
not one. -/
def parseDecimal (cs : List Char) : Option (Bool × ℚ) :=
  let (neg, _, cs) := splitSign cs
  let (ip, cs) := cs.span isDigit
  let (fp, cs) := match cs with
    | '.' :: r => r.span isDigit
    | _ => ([], cs)
  if ip = [] ∧ fp = [] then none
  else
    match parseExponent cs with
    | none => none
    | some e =>
      some (neg, scale10 (digitsValue (ip ++ fp)) (e - fp.length))

/-- The least magnitude that rounds beyond the largest float64, `2^1024 - 2^970`. -/
def overflowBound : Nat := (2 ^ 194) ^ 5 * (2 ^ 54 - 1)

/-- Go's `strconv.Quote` on strings that need no escaping. -/
def Quote (s : String) : String := "\"" ++ s ++ "\""

/-- Go's `strconv.ParseFloat(s, 64)` on special values and decimal literals.  A value at
least half an ulp beyond the largest float64 is a range error. -/
def ParseFloat (s : String) : Except String Float64 :=
  match special s.data with
  | some f => .ok f
  | none =>
    match parseDecimal s.data with
    | none => .error ("strconv.ParseFloat: parsing " ++ Quote s ++ ": invalid syntax")
    | some (neg, q) =>
      if (overflowBound : ℚ) ≤ q then
        .error ("strconv.ParseFloat: parsing " ++ Quote s ++ ": value out of range")
      else .ok (.fin (if neg then -q else q))

/-- Go's `url.getScheme`: the scheme before the first colon and the rest, or no scheme. -/
def getScheme (rawURL : List Char) : Except String (List Char × List Char) :=
  let rec go (seen rest : List Char) : Except String (List Char × List Char) :=
    match rest with
    | [] => .ok ([], rawURL)
    | c :: r =>
      if c.isAlpha then go (seen ++ [c]) r
      else if isDigit c ∨ c = '+' ∨ c = '-' ∨ c = '.' then
        if seen = [] then .ok ([], rawURL) else go (seen ++ [c]) r
      else if c = ':' then
        if seen = [] then .error "missing protocol scheme" else .ok (seen, r)
      else .ok ([], rawURL)
  go [] rawURL

/-- Go's `strings.Cut` on character lists. -/
def cut (cs : List Char) (sep : Char) : List Char × List Char :=
  let (before, rest) := cs.span (fun c => c ≠ sep)
  (before, rest.drop 1)

/-- The characters the URL model reads before the query. -/
def plainURLChar (c : Char) : Bool :=
  c.isAlphanum || c = '-' || c = '.' || c = '_' || c = '~' || c = '/' || c = ':'

/-- Go's `url.validOptionalPort` applied to what follows the last colon of a host. -/
def validPort (host : List Char) : Bool :=
  if host.contains ':' then (host.reverse.takeWhile (fun c => c ≠ ':')).all isDigit else true

/-- Go's `url.parse(rawURL, viaRequest)` on plain URLs. -/
def parse (rawURL : String) (viaRequest : Bool) : Except String URL :=
  let (beforeQuery, _) := cut rawURL.data '?'
  if ¬ beforeQuery.all plainURLChar then .error "URL outside the modelled fragment"
  else if rawURL.data.any (fun c => c.toNat < 32 ∨ c.toNat = 127 ∨ c = '#') then
    .error "URL outside the modelled fragment"
  else if rawURL = "" ∧ viaRequest then .error "empty url"
  else
    match getScheme rawURL.data with
    | .error err => .error err
    | .ok (scheme, rest) =>
      let u : URL := { Scheme := String.mk (scheme.map lowerASCII) }
      let (rest, u) :=
        if rest.getLast? = some '?' ∧ rest.count '?' = 1 then
          (rest.dropLast, { u with ForceQuery := true })
        else
          let (r, q) := cut rest '?'
          (r, { u with RawQuery := String.mk q })
      if rest.head? ≠ some '/' ∧ u.Scheme ≠ "" then
        .ok { u with Opaque := String.mk rest }
      else if rest.head? ≠ some '/' ∧ viaRequest then .error "invalid URI for request"
      else if rest.head? ≠ some '/' ∧ (cut rest '/').1.contains ':' then
        .error "first path segment in URL cannot contain colon"
      else if (u.Scheme ≠ "" ∨ (¬ viaRequest ∧ rest.take 3 ≠ ['/', '/', '/']))
          ∧ rest.take 2 = ['/', '/'] then
        let (authority, path) := (rest.drop 2).span (fun c => c ≠ '/')
        if validPort authority then
          .ok { u with Host := String.mk authority, Path := String.mk path }
        else .error "invalid port after host"
      else if u.Scheme ≠ "" ∧ rest.head? = some '/' then
        .ok { u with OmitHost := true, Path := String.mk rest }
      else .ok { u with Path := String.mk rest }

/-- Go's `url.ParseRequestURI`. -/
def ParseRequestURI (rawURL : String) : Except String URL :=
  match parse rawURL true with
  | .error err => .error ("parse " ++ Quote rawURL ++ ": " ++ err)
  | .ok u => .ok u

/-- Go's `url.Parse`, for strings without a fragment. -/
def Parse (rawURL : String) : Except String URL :=
  match parse rawURL false with
  | .error err => .error ("parse " ++ Quote rawURL ++ ": " ++ err)
  | .ok u => .ok u

/-- Go's `(*url.URL).String`, for a URL whose host and path need no escaping. -/
def URLString (u : URL) : String :=
  let buf := if u.Scheme ≠ "" then u.Scheme ++ ":" else ""
  let buf :=
    if u.Opaque ≠ "" then buf ++ u.Opaque
    else
      let buf :=
        if u.Scheme ≠ "" ∨ u.Host ≠ "" then
          if u.OmitHost ∧ u.Host = "" then buf
          else (if u.Host ≠ "" ∨ u.Path ≠ "" then buf ++ "//" else buf) ++ u.Host
        else buf
      let buf := if u.Path ≠ "" ∧ u.Path.data.head? ≠ some '/' ∧ u.Host ≠ "" then buf ++ "/"
        else buf
      let buf := if buf = "" ∧ (cut u.Path.data '/').1.contains ':' then buf ++ "./" else buf
      buf ++ u.Path
  let buf := if u.ForceQuery ∨ u.RawQuery ≠ "" then buf ++ "?" ++ u.RawQuery else buf
  if u.Fragment ≠ "" then buf ++ "#" ++ u.Fragment else buf

/-- The upper-case hexadecimal digit of a number below 16. -/
def hexDigit (n : Nat) : Char :=
  if n < 10 then Char.ofNat ('0'.toNat + n) else Char.ofNat ('A'.toNat + (n - 10))

/-- Go's `url.QueryEscape` on one UTF-8 byte: unreserved bytes stay, a space becomes a
plus sign, every other byte is percent-encoded. -/
def escapeByte (b : UInt8) : List Char :=
  let c := Char.ofNat b.toNat
  if c.isAlphanum ∨ c = '-' ∨ c = '_' ∨ c = '.' ∨ c = '~' then [c]
  else if c = ' ' then ['+']
  else ['%', hexDigit (b.toNat / 16), hexDigit (b.toNat % 16)]

/-- Go's `url.QueryEscape`. -/
def QueryEscape (s : String) : String :=
  String.mk ((s.data.map fun c => (String.utf8EncodeChar c).map escapeByte).flatten.flatten)

/-- Go's `http.NewRequestWithContext(ctx, method, url, nil)` for a valid method and a
non-nil context: the URL is parsed with `url.Parse`. -/
def NewRequestWithContext (ctx : Context) (method url : String) : Except String Request :=
  match Parse url with
  | .error err => .error err
  | .ok u => .ok { ctx := ctx, Method := method, URL := u }

/-- Go's `strings.Split(s, ",")` on character lists. -/
def splitComma (cs : List Char) : List (List Char) :=
  cs.foldr
    (fun c acc =>
      if c = ',' then [] :: acc
      else match acc with
        | [] => [[c]]
        | h :: t => (c :: h) :: t)
    [[]]

/-- Go's `strings.TrimSpace` on character lists, for ASCII white space. -/
def trimSpace (cs : List Char) : List Char :=
  ((cs.dropWhile Char.isWhitespace).reverse.dropWhile Char.isWhitespace).reverse

/-- One round of the loop of `GetAuthConfigs` over the authentication modes: `basic`
needs a non-empty `username` parameter and records the credentials, the password being
optional; a mode that is none of basic, bearer, tls and custom is an error.  The modes
bearer, tls and custom set fields that `AuthMeta` does not carry here and are reported as
errors by this instance. -/
def authModeStep (authParams : StringMap) (out : AuthMeta) (t : String) :
    Except String AuthMeta :=
  let authType := String.mk (trimSpace t.data)
  if authType = "basic" then
    if ((authParams.lookup "username").getD "").length = 0 then .error "no username given"
    else .ok { out with Username := (authParams.lookup "username").getD "",
                        Password := (authParams.lookup "password").getD "",
                        EnableBasicAuth := true }
  else if authType = "bearer" ∨ authType = "tls" ∨ authType = "custom" then
    .error "authentication mode outside the modelled fragment"
  else .error ("incorrect value for authMode is given: " ++ t)

/-- Modelled from the spec: `authentication.GetAuthConfigs` lies outside the two files.
The authentication reference of a trigger is optional and is resolved from the trigger
metadata and the authentication parameters: a trigger whose metadata has no `authModes`
key gets none; otherwise the comma-separated modes are taken in turn by `authModeStep`,
and the first error is returned. -/
def GetAuthConfigs (triggerMetadata authParams : StringMap) :
    Except String (Option AuthMeta) :=
  match triggerMetadata.lookup "authModes" with
  | none => .ok none
  | some authModes =>
    let modes : Except String AuthMeta :=
      (splitComma authModes.data).foldl
        (fun (acc : Except String AuthMeta) (t : List Char) =>
          match acc with
          | Except.error err => Except.error err
          | Except.ok out => authModeStep authParams out (String.mk t))
        (Except.ok {})
    match modes with
    | Except.error err => Except.error err
    | Except.ok out => Except.ok (some out)

/-- The dependency record of the examples, for a given JSON decoder. -/
def deps (Unmarshal : String → Except String lokiQueryResult) : Deps where
  ParseFloat := ParseFloat
  Quote := Quote
  ParseRequestURI := ParseRequestURI
  URLString := URLString
  NewRequestWithContext := NewRequestWithContext
  QueryEscape := QueryEscape
  Unmarshal := Unmarshal
  GetAuthConfigs := GetAuthConfigs

/-- A JSON decoder that knows the decoding of one response body. -/
def decodes (body : String) (result : lokiQueryResult) : String → Except String lokiQueryResult :=
  fun b => if b = body then .ok result else .error "body outside the modelled fragment"

end Go

/-! ## Concrete inputs -/

namespace Example

/-- A trigger configuration: the three required strings, a threshold, and further keys. -/
def config (threshold : String) (extra : StringMap) : ScalerConfig :=
  { TriggerMetadata :=
      [("serverAddress", "http://loki:3100/prefix"), ("query", "sum(rate(app[1m]))"),
       ("metricName", "lines"), ("threshold", threshold)] ++ extra }

/-- The metadata `parseLokiMetadata` makes of `config "1.0" []`, with a given
`ignoreNullValues` and activation threshold 1. -/
def metadata (ignoreNullValues : Bool) : lokiMetadata :=
  { serverAddress := "http://loki:3100/prefix", query := "sum(rate(app[1m]))",
    metricName := "lines", threshold := .fin 1, activationThreshold := .fin 1,
    ignoreNullValues := ignoreNullValues }

/-- A scaler whose HTTP client answers every request with `status` and `body`. -/
def scaler (ignoreNullValues : Bool) (status : Int) (body : String) : lokiScaler :=
  { metadata := metadata ignoreNullValues
    httpClient := fun _ => .ok { StatusCode := status, Body := .ok body } }

/-- The request the example scaler sends. -/
def request : Request :=
  { ctx := .Background, Method := "GET",
    URL := { Scheme := "http", Host := "loki:3100", Path := "/loki/api/v1/query",
             RawQuery := "query=sum%28rate%28app%5B1m%5D%29%29" } }

/-- A response body with the given series, as JSON text. -/
def body (series : String) : String :=
  "\x7b\"status\":\"success\",\"data\":\x7b\"resultType\":\"vector\",\"result\":["
    ++ series ++ "]\x7d\x7d"

/-- One series with the given value list, as JSON text. -/
def series (value : String) : String :=
  "\x7b\"metric\":\x7b\x7d,\"value\":" ++ value ++ "\x7d"

/-- The decoding of a response body with the given value lists, one per series. -/
def result (values : List (List JSONValue)) : lokiQueryResult :=
  { Status := "success"
    Data := { ResultType := "vector", Result := values.map fun v => { Value := v } } }

/-- The dependencies of an example whose response body `body` decodes to the series
with the given value lists. -/
def deps (body : String) (values : List (List JSONValue)) : Deps :=
  Go.deps (Go.decodes body (result values))

/-- The dependencies of an example in which no response body is decoded. -/
def staticDeps : Deps :=
  Go.deps fun _ => .error "unexpected end of JSON input"

/-- A JSON key that names the project `my-project` and has no `type` field. -/
def keyWithoutType : String := "\x7b\"project_id\":\"my-project\"\x7d"

/-- Dependencies of `Initialize` in the examples: the cluster holds `keyWithoutType` under
the secret `gcp-key`, key `key.json`, of the namespace `default`, and nothing else; the
project id of that key decodes to `my-project`; `google.CredentialsFromJSON` rejects it,
as the key has no `type` field; a client can be constructed; `fmt` renders a pod
identity, a record with the one field `Provider`, as that field between `&\x7b` and
`\x7d`. -/
def gcpDeps : GCPDeps where
  resolveAuthSecret := fun _ name ns key =>
    if name = "gcp-key" ∧ ns = "default" ∧ key = "key.json" then keyWithoutType else ""
  UnmarshalProjectID := fun json =>
    if json = keyWithoutType then .ok "my-project"
    else .error "JSON outside the modelled fragment"
  CredentialsFromJSON := fun _ _ => .error "missing \x27type\x27 field in credentials"
  NewClient := fun _ _ => (some { id := 1 }, none)
  formatPodIdentity := fun p => "&\x7b" ++ p.Provider ++ "\x7d"

/-- A handler made by `NewGCPSecretManagerHandler` for a configuration with the given
pod identity and, when `withCredentials` holds, a reference to the secret `gcp-key`, key
`key.json`. -/
def handler (podIdentity : Option AuthPodIdentity) (withCredentials : Bool) :
    GCPSecretManagerHandler :=
  NewGCPSecretManagerHandler
    { GCPProjectID := "configured-project", PodIdentity := podIdentity,
      Credentials :=
        if withCredentials then
          some { ClientSecret := { ValueFrom := { SecretKeyRef :=
            { Name := "gcp-key", Key := "key.json" } } } }
        else none }
    (Context.ofCaller 1)

/-- The bytes of the ASCII text `123456789`, whose CRC-32C is `0xE3069283`. -/
def payload : List UInt8 := [49, 50, 51, 52, 53, 54, 55, 56, 57]

/-- An initialised handler: project `my-project`, client 1. -/
def readyHandler : GCPSecretManagerHandler :=
  { gcpSecretsManager := {}, gcpSecretsManagerClient := some { id := 1 },
    ctx := Context.ofCaller 1, gcpProjectID := "my-project" }

/-- A secret store that holds `payload` as version `latest` of the secret `db-password`
of `my-project`, and returns it with the checksum `crc`. -/
def access (crc : Int) :
    SecretManagerClient → Context → String → Except String AccessSecretVersionResponse :=
  fun _ _ name =>
    if name = "projects/my-project/secrets/db-password/versions/latest" then
      .ok { Payload := some { Data := payload, DataCrc32C := some crc } }
    else .error "rpc error: code = NotFound"

end Example

/-! ## Vocabulary of the statements -/

/-- The required configuration fields, in the order `parseLokiMetadata` checks them. -/
def requiredFields : List String :=
  [lokiServerAddress, lokiQuery, lokiMetricName, lokiThreshold]

/-- The first required field that is missing, that is, whose key is absent or carries the
empty string. -/
def firstMissing (config : ScalerConfig) : Option String :=
  requiredFields.find? fun key => (nonEmptyValue config.TriggerMetadata key).isNone

/-- The tokens `strconv.ParseBool` accepts. -/
def parseBoolTokens : List String :=
  ["1", "t", "T", "TRUE", "true", "True", "0", "f", "F", "FALSE", "false", "False"]

/-- The boolean a token stands for: 1, t, T, TRUE, true, True stand for true; 0, f, F,
FALSE, false, False stand for false; no other token stands for a boolean. -/
def boolOfToken (tok : String) : Option Bool :=
  if tok ∈ ["1", "t", "T", "TRUE", "true", "True"] then some true
  else if tok ∈ ["0", "f", "F", "FALSE", "false", "False"] then some false
  else none

/-- The boolean an optional key stands for: its default when the key has no non-empty
value, and otherwise the boolean of its token. -/
def defaultedBool (default : Bool) : Option String → Option Bool
  | none => some default
  | some tok => boolOfToken tok

/-- One poll as seen from `ExecuteLokiQuery`: the request is built, the HTTP client answers
it with status code `status` and a readable body, and the body decodes to `result`. -/
def Responds (d : Deps) (s : lokiScaler) (status : Int) (result : lokiQueryResult) : Prop :=
  ∃ req r b, ExecuteLokiQuery.request d s = .ok req ∧ s.httpClient req = .ok r
    ∧ r.Body = .ok b ∧ r.StatusCode = status ∧ d.Unmarshal b = .ok result

/-- The client secret `Initialize` looks up for the credentials `c`: the value
`resolveAuthSecret` returns for the referenced name and key in the trigger namespace. -/
def clientSecretOf (g : GCPDeps) (vh : GCPSecretManagerHandler) (triggerNamespace : String)
    (c : GCPCredentials) : String :=
  g.resolveAuthSecret vh.ctx c.ClientSecret.ValueFrom.SecretKeyRef.Name triggerNamespace
    c.ClientSecret.ValueFrom.SecretKeyRef.Key

/-- The pod identity `Initialize` dispatches on: the configured one, or the empty record
when the configuration has none. -/
def podIdentityOf (vh : GCPSecretManagerHandler) : AuthPodIdentity :=
  match vh.gcpSecretsManager.PodIdentity with
  | some p => p
  | none => {}

/-- No pod identity provider is selected: the provider token is empty or "none". -/
def noProvider (vh : GCPSecretManagerHandler) : Prop :=
  (podIdentityOf vh).Provider = "" ∨ (podIdentityOf vh).Provider = PodIdentityProviderNone

/-- The resource name `Read` asks for. -/
def secretVersionName (project secretID secretVersion : String) : String :=
  "projects/" ++ project ++ "/secrets/" ++ secretID ++ "/versions/" ++ secretVersion

/-! ## Shared lemmas -/

/-- On a 2xx exchange `ExecuteLokiQuery` returns what lines 245-277 make of the decoded
result. -/
theorem ExecuteLokiQuery_of_responds {d : Deps} {s : lokiScaler} {status : Int}
    {result : lokiQueryResult} (ctx : Context) (h : Responds d s status result)
    (h2xx : 200 ≤ status ∧ status ≤ 299) :
    ExecuteLokiQuery d s ctx = ExecuteLokiQuery.reading d s result := by
  obtain ⟨req, r, b, hreq, hdo, hbody, hstatus, hdec⟩ := h
  subst hstatus
  simp [ExecuteLokiQuery, hreq, hdo, hbody, hdec, h2xx]

/-- A token outside `parseBoolTokens` is a syntax error of `strconv.ParseBool`. -/
theorem strconv.ParseBool_error_of_not_mem (d : Deps) {tok : String}
    (h : tok ∉ parseBoolTokens) :
    strconv.ParseBool d tok
      = .error ("strconv.ParseBool: parsing " ++ d.Quote tok ++ ": invalid syntax") := by
  simp [parseBoolTokens] at h
  simp [strconv.ParseBool, h]

/-- A token that stands for a boolean is read by `strconv.ParseBool` as that boolean. -/
theorem strconv.ParseBool_of_boolOfToken (d : Deps) {tok : String} {b : Bool}
    (h : boolOfToken tok = some b) : strconv.ParseBool d tok = .ok b := by
  unfold boolOfToken at h
  split at h
  · rename_i ht
    simp only [Option.some.injEq] at h
    subst h
    simp only [List.mem_cons, List.mem_singleton, List.not_mem_nil, or_false] at ht
    simp [strconv.ParseBool, ht]
  · rename_i ht
    split at h
    · rename_i hf
      simp only [Option.some.injEq] at h
      subst h
      simp only [List.mem_cons, List.mem_singleton, List.not_mem_nil, or_false] at ht hf
      simp [strconv.ParseBool, ht, hf]
    · simp at h

/-- What a successful `parseLokiMetadata` tells about the configuration, field by field. -/
theorem parseLokiMetadata_ok_inv {d : Deps} {config : ScalerConfig} {m : lokiMetadata}
    (h : parseLokiMetadata d config = .ok m) :
    nonEmptyValue config.TriggerMetadata lokiServerAddress = some m.serverAddress
    ∧ nonEmptyValue config.TriggerMetadata lokiQuery = some m.query
    ∧ nonEmptyValue config.TriggerMetadata lokiMetricName = some m.metricName
    ∧ (∃ val, nonEmptyValue config.TriggerMetadata lokiThreshold = some val
        ∧ d.ParseFloat val = .ok m.threshold)
    ∧ (match config.TriggerMetadata.lookup lokiActivationThreshold with
        | some val => d.ParseFloat val = .ok m.activationThreshold
        | none => m.activationThreshold = .fin 0)
    ∧ m.cortexOrgID = (nonEmptyValue config.TriggerMetadata lokiCortexScopeOrgID).getD ""
    ∧ (match nonEmptyValue config.TriggerMetadata lokiIgnoreNullValues with
        | some val => strconv.ParseBool d val = .ok m.ignoreNullValues
        | none => m.ignoreNullValues = true)
    ∧ (match nonEmptyValue config.TriggerMetadata unsafeSsl with
        | some val => strconv.ParseBool d val = .ok m.unsafeSsl
        | none => m.unsafeSsl = false)
    ∧ m.scalerIndex = config.ScalerIndex
    ∧ d.GetAuthConfigs config.TriggerMetadata config.AuthParams = .ok m.lokiAuth := by
  simp only [parseLokiMetadata, bind, Except.bind, pure, Except.pure, throw, throwThe,
    MonadExceptOf.throw] at h
  repeat' split at h
  all_goals simp_all [lokiDefaultIgnoreNullValues]
  all_goals (subst h; simp)

/-- The example scaler and dependencies make up a poll with the given status and
decoded result. -/
theorem Example.responds (ignoreNullValues : Bool) (status : Int) (body : String)
    (values : List (List JSONValue)) :
    Responds (Example.deps body values) (Example.scaler ignoreNullValues status body) status
      (Example.result values) :=
  ⟨Example.request, { StatusCode := status, Body := .ok body }, body, by rfl, rfl, rfl, rfl,
    by simp [Example.deps, Go.deps, Go.decodes]⟩

/-- The converse of `parseLokiMetadata_ok_inv`: when every step succeeds,
`parseLokiMetadata` returns the record of the values the steps produce. -/
theorem parseLokiMetadata_ok_of {d : Deps} {config : ScalerConfig}
    {a q n val : String} {t act : Float64} {ign uns : Bool} {auth : Option AuthMeta}
    (ha : nonEmptyValue config.TriggerMetadata lokiServerAddress = some a)
    (hq : nonEmptyValue config.TriggerMetadata lokiQuery = some q)
    (hn : nonEmptyValue config.TriggerMetadata lokiMetricName = some n)
    (hval : nonEmptyValue config.TriggerMetadata lokiThreshold = some val)
    (ht : d.ParseFloat val = .ok t)
    (hact : match config.TriggerMetadata.lookup lokiActivationThreshold with
      | some v => d.ParseFloat v = .ok act
      | none => act = .fin 0)
    (hign : match nonEmptyValue config.TriggerMetadata lokiIgnoreNullValues with
      | some v => strconv.ParseBool d v = .ok ign
      | none => ign = true)
    (huns : match nonEmptyValue config.TriggerMetadata unsafeSsl with
      | some v => strconv.ParseBool d v = .ok uns
      | none => uns = false)
    (hauth : d.GetAuthConfigs config.TriggerMetadata config.AuthParams = .ok auth) :
    parseLokiMetadata d config
      = .ok { serverAddress := a, metricName := n, query := q, threshold := t,
              activationThreshold := act, lokiAuth := auth,
              scalerIndex := config.ScalerIndex,
              cortexOrgID := (nonEmptyValue config.TriggerMetadata lokiCortexScopeOrgID).getD "",
              ignoreNullValues := ign, unsafeSsl := uns } := by
  simp only [parseLokiMetadata, bind, Except.bind, pure, Except.pure, throw, throwThe,
    MonadExceptOf.throw, ha, hq, hn, hval, ht, hauth]
  split at hact <;> split at hign <;> split at huns <;>
    cases hc : nonEmptyValue config.TriggerMetadata lokiCortexScopeOrgID <;>
    simp_all [lokiDefaultIgnoreNullValues]

/-- The comparison `a > a` is false for every `float64`. -/
theorem Float64.gt_self (a : Float64) : a.gt a = false := by
  cases a with
  | NaN => rfl
  | Inf neg => cases neg <;> rfl
  | fin q => simp [Float64.gt]

/-- A key that is absent has no non-empty value. -/
theorem nonEmptyValue_of_lookup_none {m : StringMap} {key : String}
    (h : m.lookup key = none) : nonEmptyValue m key = none := by
  simp [nonEmptyValue, h]

/-- A key that carries the empty string has no non-empty value. -/
theorem nonEmptyValue_of_lookup_empty {m : StringMap} {key : String}
    (h : m.lookup key = some "") : nonEmptyValue m key = none := by
  simp [nonEmptyValue, h]

/-- The result of `Initialize`, written with `podIdentityOf` and `clientSecretOf`. -/
theorem Initialize_eq (g : GCPDeps) (vh : GCPSecretManagerHandler)
    (triggerNamespace : String) :
    GCPSecretManagerHandler.Initialize g vh triggerNamespace
      = if (podIdentityOf vh).Provider = ""
            ∨ (podIdentityOf vh).Provider = PodIdentityProviderNone then
          match vh.gcpSecretsManager.Credentials with
          | none => (vh, some "clientSecret is expected when not using a pod identity provider")
          | some c =>
            if clientSecretOf g vh triggerNamespace c = "" then
              (vh, some "clientSecret is expected when not using a pod identity provider")
            else
              match g.UnmarshalProjectID (clientSecretOf g vh triggerNamespace c) with
              | .error e => (vh, some ("failed to unmarshal json key, " ++ e))
              | .ok projectID =>
                match g.CredentialsFromJSON vh.ctx (clientSecretOf g vh triggerNamespace c) with
                | .error e =>
                  ({ vh with gcpProjectID := projectID },
                    some ("failed to get credentials from json, " ++ e))
                | .ok gcpCredentials =>
                  match g.NewClient vh.ctx (some gcpCredentials) with
                  | (client, some e) =>
                    ({ vh with gcpProjectID := projectID, gcpSecretsManagerClient := client },
                      some ("failed to create secretmanager client, " ++ e))
                  | (client, none) =>
                    ({ vh with gcpProjectID := projectID, gcpSecretsManagerClient := client },
                      none)
        else if (podIdentityOf vh).Provider = PodIdentityProviderGCP then
          if vh.gcpProjectID = "" then
            (vh, some
              "gcp project id needs to be provided for using the gcp pod identity, <nil>")
          else
            match g.NewClient vh.ctx none with
            | (client, some e) =>
              ({ vh with gcpProjectID := vh.gcpSecretsManager.GCPProjectID,
                         gcpSecretsManagerClient := client },
                some ("failed to create secretmanager client: " ++ e))
            | (client, none) =>
              ({ vh with gcpProjectID := vh.gcpSecretsManager.GCPProjectID,
                         gcpSecretsManagerClient := client }, none)
        else
          (vh, some ("key vault does not support pod identity provider - "
            ++ g.formatPodIdentity (podIdentityOf vh))) := by
  unfold GCPSecretManagerHandler.Initialize podIdentityOf clientSecretOf
  cases hpi : vh.gcpSecretsManager.PodIdentity <;>
    cases hc : vh.gcpSecretsManager.Credentials <;> simp only [] <;>
    repeat' split
  all_goals simp_all

/-! ## The GCP pod identity branch of `Initialize` -/

/-- C1 (the code departs from the claim): on a handler made by
`NewGCPSecretManagerHandler`, whose resolved project id is still empty, `Initialize` with
the gcp pod identity provider returns the "gcp project id needs to be provided" error
for every configured `GCPProjectID`, also a non-empty one, and whatever client
construction would return; the handler is left as it was. -/
theorem Initialize_gcp_fresh_handler_fails (g : GCPDeps) (v : GCPSecretManager)
    (ctx : Context) (triggerNamespace GCPProjectID : String) :
    GCPSecretManagerHandler.Initialize g
        (NewGCPSecretManagerHandler
          { v with GCPProjectID := GCPProjectID,
                   PodIdentity := some { Provider := PodIdentityProviderGCP } } ctx)
        triggerNamespace
      = (NewGCPSecretManagerHandler
          { v with GCPProjectID := GCPProjectID,
                   PodIdentity := some { Provider := PodIdentityProviderGCP } } ctx,
         some "gcp project id needs to be provided for using the gcp pod identity, <nil>") := by
  simp [GCPSecretManagerHandler.Initialize, NewGCPSecretManagerHandler,
    PodIdentityProviderGCP, PodIdentityProviderNone]

/-! ## `parseLokiMetadata` -/

/-- C6: when a required field is missing (absent or empty), `parseLokiMetadata` returns
the error "no FIELD given" for the first missing field in the order serverAddress,
query, metricName, threshold, whatever the other fields hold. -/
theorem parseLokiMetadata_first_missing (d : Deps) (config : ScalerConfig) (field : String)
    (h : firstMissing config = some field) :
    parseLokiMetadata d config = .error ("no " ++ field ++ " given") := by
  unfold firstMissing requiredFields at h
  cases h1 : nonEmptyValue config.TriggerMetadata lokiServerAddress with
  | none =>
    simp [List.find?, h1] at h
    subst h
    simp [parseLokiMetadata, h1, bind, Except.bind, throw, throwThe, MonadExceptOf.throw]
  | some v1 =>
    cases h2 : nonEmptyValue config.TriggerMetadata lokiQuery with
    | none =>
      simp [List.find?, h1, h2] at h
      subst h
      simp [parseLokiMetadata, h1, h2, bind, Except.bind, pure, Except.pure, throw, throwThe,
        MonadExceptOf.throw]
    | some v2 =>
      cases h3 : nonEmptyValue config.TriggerMetadata lokiMetricName with
      | none =>
        simp [List.find?, h1, h2, h3] at h
        subst h
        simp [parseLokiMetadata, h1, h2, h3, bind, Except.bind, pure, Except.pure, throw,
          throwThe, MonadExceptOf.throw]
      | some v3 =>
        cases h4 : nonEmptyValue config.TriggerMetadata lokiThreshold with
        | none =>
          simp [List.find?, h1, h2, h3, h4] at h
          subst h
          simp [parseLokiMetadata, h1, h2, h3, h4, bind, Except.bind, pure, Except.pure,
            throw, throwThe, MonadExceptOf.throw]
        | some v4 => simp [List.find?, h1, h2, h3, h4] at h

/-- C6, at a concrete input: query is absent, metricName is empty and threshold is not a
number; the error names query. -/
theorem parseLokiMetadata_first_missing_witness :
    firstMissing { TriggerMetadata :=
        [("serverAddress", "http://loki:3100"), ("metricName", ""), ("threshold", "abc")] }
      = some "query"
    ∧ parseLokiMetadata Example.staticDeps { TriggerMetadata :=
        [("serverAddress", "http://loki:3100"), ("metricName", ""), ("threshold", "abc")] }
      = .error ("no " ++ "query" ++ " given") :=
  ⟨by decide, parseLokiMetadata_first_missing _ _ _ (by decide)⟩

/-- C3 (counterexample): with valid required fields, `ignoreNullValues` set to "0" and
`unsafeSsl` set to "TRUE", `parseLokiMetadata` returns metadata, not an error: the two
tokens are read as false and true. -/
theorem parseLokiMetadata_accepts_0_and_TRUE :
    parseLokiMetadata Example.staticDeps
        (Example.config "1.0" [("ignoreNullValues", "0"), ("unsafeSsl", "TRUE")])
      = .ok { serverAddress := "http://loki:3100/prefix", query := "sum(rate(app[1m]))",
              metricName := "lines", threshold := .fin 1, activationThreshold := .fin 0,
              ignoreNullValues := false, unsafeSsl := true } := by
  with_unfolding_all decide

/-- C3 (amended): for every configuration, if the `ignoreNullValues` key or the `unsafeSsl`
key carries a non-empty token that is none of the twelve tokens `strconv.ParseBool`
accepts (1, t, T, TRUE, true, True, 0, f, F, FALSE, false, False), `parseLokiMetadata`
returns an error and no metadata.  Each of the twelve tokens is read as a boolean: 1, t,
T, TRUE, true, True as true and 0, f, F, FALSE, false, False as false; when the other
steps succeed and each of the two keys is absent, empty or carries one of the twelve
tokens, `parseLokiMetadata` returns metadata whose `ignoreNullValues` and `unsafeSsl` are
the booleans of the tokens (the defaults true and false for an absent or empty key). -/
theorem parseLokiMetadata_bool_tokens (d : Deps) (config : ScalerConfig) :
    (∀ tok, (nonEmptyValue config.TriggerMetadata lokiIgnoreNullValues = some tok
          ∨ nonEmptyValue config.TriggerMetadata unsafeSsl = some tok) →
        tok ∉ parseBoolTokens → ∃ msg, parseLokiMetadata d config = .error msg)
    ∧ (∀ tok, tok ∈ parseBoolTokens →
        ∃ b, boolOfToken tok = some b ∧ strconv.ParseBool d tok = .ok b)
    ∧ (∀ (a q n val : String) (t act : Float64) (auth : Option AuthMeta)
        (ignoreToken unsafeToken : Option String) (ign uns : Bool),
        nonEmptyValue config.TriggerMetadata lokiServerAddress = some a →
        nonEmptyValue config.TriggerMetadata lokiQuery = some q →
        nonEmptyValue config.TriggerMetadata lokiMetricName = some n →
        nonEmptyValue config.TriggerMetadata lokiThreshold = some val →
        d.ParseFloat val = .ok t →
        (match config.TriggerMetadata.lookup lokiActivationThreshold with
          | some v => d.ParseFloat v = .ok act
          | none => act = .fin 0) →
        nonEmptyValue config.TriggerMetadata lokiIgnoreNullValues = ignoreToken →
        nonEmptyValue config.TriggerMetadata unsafeSsl = unsafeToken →
        defaultedBool true ignoreToken = some ign →
        defaultedBool false unsafeToken = some uns →
        d.GetAuthConfigs config.TriggerMetadata config.AuthParams = .ok auth →
        parseLokiMetadata d config
          = .ok { serverAddress := a, metricName := n, query := q, threshold := t,
                  activationThreshold := act, lokiAuth := auth,
                  scalerIndex := config.ScalerIndex,
                  cortexOrgID :=
                    (nonEmptyValue config.TriggerMetadata lokiCortexScopeOrgID).getD "",
                  ignoreNullValues := ign, unsafeSsl := uns }) := by
  refine ⟨?_, ?_, ?_⟩
  · intro tok hkey htok
    cases hp : parseLokiMetadata d config with
    | error msg => exact ⟨msg, rfl⟩
    | ok m =>
      have hinv := parseLokiMetadata_ok_inv hp
      have hbad := strconv.ParseBool_error_of_not_mem d htok
      rcases hkey with hk | hk
      · have h7 := hinv.2.2.2.2.2.2.1
        rw [hk] at h7
        simp [hbad] at h7
      · have h8 := hinv.2.2.2.2.2.2.2.1
        rw [hk] at h8
        simp [hbad] at h8
  · intro tok htok
    have hb : ∃ b, boolOfToken tok = some b := by
      simp only [parseBoolTokens, List.mem_cons, List.mem_singleton, List.not_mem_nil,
        or_false] at htok
      rcases htok with h | h | h | h | h | h | h | h | h | h | h | h <;> subst h <;>
        first
          | exact ⟨true, by decide⟩
          | exact ⟨false, by decide⟩
    obtain ⟨b, hb⟩ := hb
    exact ⟨b, hb, strconv.ParseBool_of_boolOfToken d hb⟩
  · intro a q n val t act auth ignoreToken unsafeToken ign uns ha hq hn hval ht hact hi hu
      hign huns hauth
    refine parseLokiMetadata_ok_of ha hq hn hval ht hact ?_ ?_ hauth
    · rw [hi]
      cases ignoreToken with
      | none => simpa [defaultedBool] using hign.symm
      | some tok => exact strconv.ParseBool_of_boolOfToken d hign
    · rw [hu]
      cases unsafeToken with
      | none => simpa [defaultedBool] using huns.symm
      | some tok => exact strconv.ParseBool_of_boolOfToken d huns

/-- C3 (amended), at concrete inputs: `ignoreNullValues` set to "yes" is an error; the
tokens "true" and "false" are read as true and false; `ignoreNullValues` set to "false"
next to `unsafeSsl` set to "t" gives metadata with false and true. -/
theorem parseLokiMetadata_bool_tokens_witness :
    (∃ msg, parseLokiMetadata Example.staticDeps
      (Example.config "1.0" [("ignoreNullValues", "yes")]) = .error msg)
    ∧ (∃ b, boolOfToken "true" = some b ∧ strconv.ParseBool Example.staticDeps "true" = .ok b)
    ∧ (∃ b, boolOfToken "false" = some b
        ∧ strconv.ParseBool Example.staticDeps "false" = .ok b)
    ∧ parseLokiMetadata Example.staticDeps
        (Example.config "1.0" [("ignoreNullValues", "false"), ("unsafeSsl", "t")])
      = .ok { serverAddress := "http://loki:3100/prefix", metricName := "lines",
              query := "sum(rate(app[1m]))", threshold := .fin 1,
              activationThreshold := .fin 0, lokiAuth := none, scalerIndex := 0,
              cortexOrgID := "", ignoreNullValues := false, unsafeSsl := true } :=
  ⟨(parseLokiMetadata_bool_tokens Example.staticDeps
      (Example.config "1.0" [("ignoreNullValues", "yes")])).1 "yes" (Or.inl (by decide))
      (by decide),
   (parseLokiMetadata_bool_tokens Example.staticDeps (Example.config "1.0" [])).2.1 "true"
      (by decide),
   (parseLokiMetadata_bool_tokens Example.staticDeps (Example.config "1.0" [])).2.1 "false"
      (by decide),
   (parseLokiMetadata_bool_tokens Example.staticDeps
      (Example.config "1.0" [("ignoreNullValues", "false"), ("unsafeSsl", "t")])).2.2
      "http://loki:3100/prefix" "sum(rate(app[1m]))" "lines" "1.0" (.fin 1) (.fin 0) none
      (some "false") (some "t") false true
      (by decide) (by decide) (by decide) (by decide) (by with_unfolding_all decide)
      (by show Float64.fin 0 = Float64.fin 0; rfl) (by decide) (by decide) (by decide)
      (by decide) (by decide)⟩

/-- C5 (counterexample): the threshold token "NaN" is not rejected; the metadata returned
carries a threshold that is not finite. -/
theorem parseLokiMetadata_accepts_NaN_threshold :
    parseLokiMetadata Example.staticDeps (Example.config "NaN" [])
      = .ok { serverAddress := "http://loki:3100/prefix", query := "sum(rate(app[1m]))",
              metricName := "lines", threshold := .NaN, activationThreshold := .fin 0,
              ignoreNullValues := true, unsafeSsl := false }
    ∧ Float64.isFinite .NaN = false := by
  with_unfolding_all decide

/-- C5 (amended): every metadata record that `parseLokiMetadata` returns without error has
as threshold exactly the float that `strconv.ParseFloat` returns for the configured,
non-empty threshold string; no finiteness check is made. -/
theorem parseLokiMetadata_threshold_is_parsed (d : Deps) (config : ScalerConfig)
    (m : lokiMetadata) (h : parseLokiMetadata d config = .ok m) :
    ∃ val, config.TriggerMetadata.lookup lokiThreshold = some val ∧ val ≠ ""
      ∧ d.ParseFloat val = .ok m.threshold := by
  obtain ⟨val, hval, hparse⟩ := (parseLokiMetadata_ok_inv h).2.2.2.1
  refine ⟨val, ?_, ?_, hparse⟩
  · unfold nonEmptyValue at hval
    split at hval
    · split at hval <;> simp_all
    · simp at hval
  · unfold nonEmptyValue at hval
    split at hval
    · split at hval <;> simp_all
    · simp at hval

/-- C5 (amended), at a concrete input: the threshold "-Inf" is stored as negative
infinity. -/
theorem parseLokiMetadata_threshold_is_parsed_witness :
    ∃ val, (Example.config "-Inf" []).TriggerMetadata.lookup lokiThreshold = some val
      ∧ val ≠ ""
      ∧ Example.staticDeps.ParseFloat val = .ok (Float64.Inf true) :=
  parseLokiMetadata_threshold_is_parsed Example.staticDeps
    (Example.config "-Inf" [])
    { serverAddress := "http://loki:3100/prefix", query := "sum(rate(app[1m]))",
      metricName := "lines", threshold := .Inf true, activationThreshold := .fin 0,
      ignoreNullValues := true, unsafeSsl := false }
    (by with_unfolding_all decide)

/-! ## `ExecuteLokiQuery` -/

/-- C4 (counterexample): for the server address `http://loki:3100/prefix`, whose path is
`/prefix`, the queried URL has the path `/loki/api/v1/query`, not
`/prefix/loki/api/v1/query`; the request goes to
`http://loki:3100/loki/api/v1/query?query=...`. -/
theorem ExecuteLokiQuery_url_replaces_path :
    (Go.ParseRequestURI "http://loki:3100/prefix").map (fun u => u.Path) = .ok "/prefix"
    ∧ (ExecuteLokiQuery.url Example.staticDeps
        (Example.scaler true 200 "")).map (fun u => u.Path) = .ok "/loki/api/v1/query"
    ∧ "/loki/api/v1/query" ≠ "/prefix" ++ "/loki/api/v1/query"
    ∧ (ExecuteLokiQuery.url Example.staticDeps
        (Example.scaler true 200 "")).map Go.URLString
      = .ok "http://loki:3100/loki/api/v1/query?query=sum%28rate%28app%5B1m%5D%29%29" := by
  decide

/-- C4 (amended): for every server address that parses as a request URI, the URL that
`ExecuteLokiQuery` queries is the parsed address with its path replaced by the fixed path
`/loki/api/v1/query` and its query string replaced by the single parameter `query`
(the URL-encoded key, `query` itself under Go's `url.QueryEscape`) holding the
URL-encoded configured query; the request is made for the rendering of that URL, with
the method GET. -/
theorem ExecuteLokiQuery_url_fixed_path (d : Deps) (s : lokiScaler) (u : URL)
    (h : d.ParseRequestURI s.metadata.serverAddress = .ok u) :
    ExecuteLokiQuery.url d s
        = .ok { u with Path := "/loki/api/v1/query",
                       RawQuery := d.QueryEscape "query" ++ "=" ++ d.QueryEscape s.metadata.query }
    ∧ ∀ req, ExecuteLokiQuery.request d s = .ok req →
        ∃ req0, d.NewRequestWithContext Context.Background "GET"
            (d.URLString { u with Path := "/loki/api/v1/query",
                                  RawQuery := d.QueryEscape "query" ++ "=" ++ d.QueryEscape s.metadata.query })
            = .ok req0
          ∧ req.URL = req0.URL ∧ req.Method = req0.Method := by
  have hurl : ExecuteLokiQuery.url d s
      = .ok { u with Path := "/loki/api/v1/query",
                     RawQuery := d.QueryEscape "query" ++ "=" ++ d.QueryEscape s.metadata.query } := by
    simp [ExecuteLokiQuery.url, h, url.Values.Encode, String.intercalate, String.intercalate.go]
  refine ⟨hurl, ?_⟩
  intro req hreq
  simp only [ExecuteLokiQuery.request, hurl] at hreq
  split at hreq
  · simp at hreq
  · rename_i req0 hreq0
    refine ⟨req0, hreq0, ?_⟩
    simp only [Except.ok.injEq] at hreq
    subst hreq
    split <;> split <;> (try split) <;> simp

/-- C4 (amended), at a concrete input: the server address `http://loki:3100/prefix` and
the query `sum(rate(app[1m]))`. -/
theorem ExecuteLokiQuery_url_fixed_path_witness :
    ExecuteLokiQuery.url Example.staticDeps (Example.scaler true 200 "")
        = .ok { Scheme := "http", Host := "loki:3100", Path := "/loki/api/v1/query",
                RawQuery := "query" ++ "=" ++ "sum%28rate%28app%5B1m%5D%29%29" }
    ∧ ∀ req, ExecuteLokiQuery.request Example.staticDeps
          (Example.scaler true 200 "") = .ok req →
        ∃ req0, Go.NewRequestWithContext Context.Background "GET"
            "http://loki:3100/loki/api/v1/query?query=sum%28rate%28app%5B1m%5D%29%29"
            = .ok req0
          ∧ req.URL = req0.URL ∧ req.Method = req0.Method :=
  ExecuteLokiQuery_url_fixed_path Example.staticDeps (Example.scaler true 200 "")
    { Scheme := "http", Host := "loki:3100", Path := "/prefix" } (by decide)

/-- C2 (counterexample): a 200 response with the one series `[1700000000, null]` gives
the reading -1 with no error, not the reading 0, with `ignoreNullValues` true as well as
false. -/
theorem ExecuteLokiQuery_null_value_is_not_zero :
    ExecuteLokiQuery
        (Example.deps (Example.body (Example.series "[1700000000,null]"))
          [[.number (.fin 1700000000), .null]])
        (Example.scaler true 200 (Example.body (Example.series "[1700000000,null]")))
        Context.Background
      = .ok (.fin (-1))
    ∧ ExecuteLokiQuery
        (Example.deps (Example.body (Example.series "[1700000000,null]"))
          [[.number (.fin 1700000000), .null]])
        (Example.scaler false 200 (Example.body (Example.series "[1700000000,null]")))
        Context.Background
      = .ok (.fin (-1))
    ∧ Outcome.ok (Float64.fin (-1)) ≠ Outcome.ok (Float64.fin 0) := by
  refine ⟨?_, ?_, by with_unfolding_all decide⟩
  · rw [ExecuteLokiQuery_of_responds _ (Example.responds _ _ _ _) (by decide)]
    rfl
  · rw [ExecuteLokiQuery_of_responds _ (Example.responds _ _ _ _) (by decide)]
    rfl

/-- C2 (amended): for every metadata (`ignoreNullValues` true or false) and every 2xx
response that decodes to exactly one series whose value list has at least 2 elements and
whose element at index 1 is null, `ExecuteLokiQuery` returns the reading -1 (the value
its result variable is initialised with) with no error. -/
theorem ExecuteLokiQuery_null_value (d : Deps) (s : lokiScaler) (ctx : Context)
    (status : Int) (result : lokiQueryResult) (series : lokiQueryResultSeries)
    (h : Responds d s status result) (h2xx : 200 ≤ status ∧ status ≤ 299)
    (hone : result.Data.Result = [series]) (hlen : 2 ≤ series.Value.length)
    (hnull : series.Value[1]? = some .null) :
    ExecuteLokiQuery d s ctx = .ok (.fin (-1)) := by
  rw [ExecuteLokiQuery_of_responds ctx h h2xx]
  have h0 : series.Value.length ≠ 0 := by omega
  have h1 : ¬ series.Value.length < 2 := by omega
  simp [ExecuteLokiQuery.reading, hone, h0, h1, hnull]

/-- C2 (amended), at a concrete input: status 200, the one series `[1700000000, null]`,
`ignoreNullValues` true. -/
theorem ExecuteLokiQuery_null_value_witness :
    ExecuteLokiQuery
        (Example.deps (Example.body (Example.series "[1700000000,null]"))
          [[.number (.fin 1700000000), .null]])
        (Example.scaler true 200 (Example.body (Example.series "[1700000000,null]")))
        Context.Background
      = .ok (.fin (-1)) :=
  ExecuteLokiQuery_null_value _ _ _ 200
    (Example.result [[.number (.fin 1700000000), .null]])
    { Value := [.number (.fin 1700000000), .null] }
    (Example.responds _ _ _ _) (by decide) rfl (by decide) rfl

/-- C7: for every 2xx response that decodes to zero series, or to exactly one series whose
value list is empty, `ExecuteLokiQuery` returns the reading 0 with no error when
`ignoreNullValues` is true, and an error when it is false. -/
theorem ExecuteLokiQuery_no_data (d : Deps) (s : lokiScaler) (ctx : Context)
    (status : Int) (result : lokiQueryResult)
    (h : Responds d s status result) (h2xx : 200 ≤ status ∧ status ≤ 299)
    (hshape : result.Data.Result = []
      ∨ ∃ series, result.Data.Result = [series] ∧ series.Value = []) :
    (s.metadata.ignoreNullValues = true → ExecuteLokiQuery d s ctx = .ok (.fin 0))
    ∧ (s.metadata.ignoreNullValues = false → ∃ msg, ExecuteLokiQuery d s ctx = .error msg) := by
  rw [ExecuteLokiQuery_of_responds ctx h h2xx]
  rcases hshape with hnil | ⟨series, hone, hval⟩
  · constructor <;> intro hign <;> simp [ExecuteLokiQuery.reading, hnil, hign]
  · constructor <;> intro hign <;> simp [ExecuteLokiQuery.reading, hone, hval, hign]

/-- C7, at concrete inputs: zero series with `ignoreNullValues` true, and one series with
the empty value list with `ignoreNullValues` false. -/
theorem ExecuteLokiQuery_no_data_witness :
    ExecuteLokiQuery (Example.deps (Example.body "") [])
        (Example.scaler true 200 (Example.body "")) Context.Background = .ok (.fin 0)
    ∧ ∃ msg, ExecuteLokiQuery (Example.deps (Example.body (Example.series "[]")) [[]])
        (Example.scaler false 200 (Example.body (Example.series "[]"))) Context.Background
        = .error msg :=
  ⟨(ExecuteLokiQuery_no_data _ _ _ 200 (Example.result []) (Example.responds _ _ _ _)
      (by decide) (Or.inl rfl)).1 rfl,
   (ExecuteLokiQuery_no_data _ _ _ 200 (Example.result [[]]) (Example.responds _ _ _ _)
      (by decide) (Or.inr ⟨{ Value := [] }, rfl, rfl⟩)).2 rfl⟩

/-- C8: for every 2xx response that decodes to two or more series, `ExecuteLokiQuery`
returns the "returned multiple elements" error, for both values of `ignoreNullValues`
and whatever the series contain. -/
theorem ExecuteLokiQuery_multiple_series (d : Deps) (s : lokiScaler) (ctx : Context)
    (status : Int) (result : lokiQueryResult)
    (h : Responds d s status result) (h2xx : 200 ≤ status ∧ status ≤ 299)
    (hmany : 2 ≤ result.Data.Result.length) :
    ExecuteLokiQuery d s ctx
      = .error ("loki query " ++ s.metadata.query ++ " returned multiple elements") := by
  rw [ExecuteLokiQuery_of_responds ctx h h2xx]
  have h0 : result.Data.Result ≠ [] := by
    intro hnil
    simp [hnil] at hmany
  have h1 : 1 < result.Data.Result.length := by omega
  simp [ExecuteLokiQuery.reading, h0, h1]

/-- C8, at a concrete input: two series, each with the value `[1700000000, "1.5"]`, and
`ignoreNullValues` true. -/
theorem ExecuteLokiQuery_multiple_series_witness :
    ExecuteLokiQuery
        (Example.deps
          (Example.body (Example.series "[1700000000,\"1.5\"]" ++ ","
            ++ Example.series "[1700000000,\"1.5\"]"))
          [[.number (.fin 1700000000), .string "1.5"],
           [.number (.fin 1700000000), .string "1.5"]])
        (Example.scaler true 200
          (Example.body (Example.series "[1700000000,\"1.5\"]" ++ ","
            ++ Example.series "[1700000000,\"1.5\"]")))
        Context.Background
      = .error ("loki query " ++ "sum(rate(app[1m]))" ++ " returned multiple elements") :=
  ExecuteLokiQuery_multiple_series _ _ _ 200
    (Example.result [[.number (.fin 1700000000), .string "1.5"],
      [.number (.fin 1700000000), .string "1.5"]])
    (Example.responds _ _ _ _) (by decide) (by decide)

/-- C9: for every 2xx response that decodes to exactly one series whose value list has
exactly one element, `ExecuteLokiQuery` returns the "didn't return enough values" error,
for both values of `ignoreNullValues`. -/
theorem ExecuteLokiQuery_one_element (d : Deps) (s : lokiScaler) (ctx : Context)
    (status : Int) (result : lokiQueryResult) (series : lokiQueryResultSeries)
    (h : Responds d s status result) (h2xx : 200 ≤ status ∧ status ≤ 299)
    (hone : result.Data.Result = [series]) (hlen : series.Value.length = 1) :
    ExecuteLokiQuery d s ctx
      = .error ("loki query " ++ s.metadata.query ++ " didn't return enough values") := by
  rw [ExecuteLokiQuery_of_responds ctx h h2xx]
  simp [ExecuteLokiQuery.reading, hone, hlen]

/-- C9, at a concrete input: the one series `[1700000000]`, with `ignoreNullValues`
true. -/
theorem ExecuteLokiQuery_one_element_witness :
    ExecuteLokiQuery
        (Example.deps (Example.body (Example.series "[1700000000]"))
          [[.number (.fin 1700000000)]])
        (Example.scaler true 200 (Example.body (Example.series "[1700000000]")))
        Context.Background
      = .error ("loki query " ++ "sum(rate(app[1m]))" ++ " didn't return enough values") :=
  ExecuteLokiQuery_one_element _ _ _ 200 (Example.result [[.number (.fin 1700000000)]])
    { Value := [.number (.fin 1700000000)] }
    (Example.responds _ _ _ _) (by decide) rfl rfl

/-- C10: for every 2xx response that decodes to exactly one series whose value list has at
least 2 elements and whose element at index 1 is a string, `ExecuteLokiQuery` returns the
float that string parses to, with no error, whatever the other elements are, and returns
the parse error when the string does not parse. -/
theorem ExecuteLokiQuery_string_value (d : Deps) (s : lokiScaler) (ctx : Context)
    (status : Int) (result : lokiQueryResult) (series : lokiQueryResultSeries) (str : String)
    (h : Responds d s status result) (h2xx : 200 ≤ status ∧ status ≤ 299)
    (hone : result.Data.Result = [series]) (hlen : 2 ≤ series.Value.length)
    (hstr : series.Value[1]? = some (.string str)) :
    (∀ x, d.ParseFloat str = .ok x → ExecuteLokiQuery d s ctx = .ok x)
    ∧ (∀ err, d.ParseFloat str = .error err → ExecuteLokiQuery d s ctx = .error err) := by
  rw [ExecuteLokiQuery_of_responds ctx h h2xx]
  have h0 : series.Value.length ≠ 0 := by omega
  have h1 : ¬ series.Value.length < 2 := by omega
  constructor
  · intro x hx
    simp [ExecuteLokiQuery.reading, hone, h0, h1, hstr, hx]
  · intro err herr
    simp [ExecuteLokiQuery.reading, hone, h0, h1, hstr, herr]

/-- C10, at the concrete input of the claim: the value pair `[1700000000, "1.5"]` gives
the reading 1.5. -/
theorem ExecuteLokiQuery_string_value_witness :
    ExecuteLokiQuery
        (Example.deps (Example.body (Example.series "[1700000000,\"1.5\"]"))
          [[.number (.fin 1700000000), .string "1.5"]])
        (Example.scaler true 200 (Example.body (Example.series "[1700000000,\"1.5\"]")))
        Context.Background
      = .ok (.fin (3 / 2)) :=
  (ExecuteLokiQuery_string_value _ _ _ 200
    (Example.result [[.number (.fin 1700000000), .string "1.5"]])
    { Value := [.number (.fin 1700000000), .string "1.5"] } "1.5"
    (Example.responds _ _ _ _) (by decide) rfl (by decide) rfl).1 _
    (by with_unfolding_all decide)

/-- C11: once the request is built, answered and its body read, a status code outside
200..299 makes `ExecuteLokiQuery` return the error whose message carries the status code
and the raw body, whatever the body is; for a status code inside 200..299 the body is
decoded instead and the outcome is the decoding error or what the decoded result gives. -/
theorem ExecuteLokiQuery_status (d : Deps) (s : lokiScaler) (ctx : Context) (req : Request)
    (r : Response) (b : String) (hreq : ExecuteLokiQuery.request d s = .ok req)
    (hdo : s.httpClient req = .ok r) (hbody : r.Body = .ok b) :
    (¬ (200 ≤ r.StatusCode ∧ r.StatusCode ≤ 299) →
      ExecuteLokiQuery d s ctx
        = .error ("loki query api returned error. status: " ++ toString r.StatusCode
            ++ " response: " ++ b))
    ∧ (200 ≤ r.StatusCode ∧ r.StatusCode ≤ 299 →
      ExecuteLokiQuery d s ctx
        = match d.Unmarshal b with
          | .error err => .error err
          | .ok result => ExecuteLokiQuery.reading d s result) := by
  constructor
  · intro h
    have h' : ¬ (r.StatusCode ≥ 200 ∧ r.StatusCode ≤ 299) := h
    simp only [ExecuteLokiQuery, hreq, hdo, hbody]
    rw [if_pos h']
  · intro h
    have h' : ¬ ¬ (r.StatusCode ≥ 200 ∧ r.StatusCode ≤ 299) := not_not.mpr h
    simp only [ExecuteLokiQuery, hreq, hdo, hbody]
    rw [if_neg h']

/-- C11, at concrete inputs: the well-formed body with the value pair
`[1700000000, "1.5"]` under status 503 gives the error carrying 503 and the body, and
under status 299 it is decoded. -/
theorem ExecuteLokiQuery_status_witness :
    ExecuteLokiQuery
        (Example.deps (Example.body (Example.series "[1700000000,\"1.5\"]"))
          [[.number (.fin 1700000000), .string "1.5"]])
        (Example.scaler true 503 (Example.body (Example.series "[1700000000,\"1.5\"]")))
        Context.Background
      = .error ("loki query api returned error. status: " ++ toString (503 : Int)
          ++ " response: " ++ Example.body (Example.series "[1700000000,\"1.5\"]"))
    ∧ ExecuteLokiQuery
        (Example.deps (Example.body (Example.series "[1700000000,\"1.5\"]"))
          [[.number (.fin 1700000000), .string "1.5"]])
        (Example.scaler true 299 (Example.body (Example.series "[1700000000,\"1.5\"]")))
        Context.Background
      = ExecuteLokiQuery.reading
          (Example.deps (Example.body (Example.series "[1700000000,\"1.5\"]"))
            [[.number (.fin 1700000000), .string "1.5"]])
          (Example.scaler true 299 (Example.body (Example.series "[1700000000,\"1.5\"]")))
          (Example.result [[.number (.fin 1700000000), .string "1.5"]]) :=
  ⟨(ExecuteLokiQuery_status _ _ _ Example.request
      { StatusCode := 503, Body := .ok (Example.body (Example.series "[1700000000,\"1.5\"]")) }
      _ (by rfl) rfl rfl).1 (by decide),
   ((ExecuteLokiQuery_status _ _ _ Example.request
      { StatusCode := 299, Body := .ok (Example.body (Example.series "[1700000000,\"1.5\"]")) }
      _ (by rfl) rfl rfl).2 (by decide)).trans
      (by simp [Example.deps, Go.deps, Go.decodes])⟩

/-! ## `IsActive` -/

/-- C12: whenever `ExecuteLokiQuery` returns a reading `r` without error, `IsActive`
returns `r > activationThreshold` without error; the comparison is strict, so a reading
equal to the activation threshold is inactive, and a reading 0 is active exactly when
`0 > activationThreshold`. -/
theorem IsActive_strict (d : Deps) (s : lokiScaler) (ctx : Context) (r : Float64)
    (h : ExecuteLokiQuery d s ctx = .ok r) :
    IsActive d s ctx = .ok (r.gt s.metadata.activationThreshold)
    ∧ (r = s.metadata.activationThreshold → IsActive d s ctx = .ok false)
    ∧ (r = .fin 0 →
        IsActive d s ctx = .ok ((Float64.fin 0).gt s.metadata.activationThreshold)) := by
  have hact : IsActive d s ctx = .ok (r.gt s.metadata.activationThreshold) := by
    simp [IsActive, h]
  refine ⟨hact, ?_, ?_⟩
  · intro heq
    rw [hact, heq, Float64.gt_self]
  · intro heq
    rw [hact, heq]

/-- C12, at concrete inputs with the activation threshold 1: zero series with
`ignoreNullValues` true give the reading 0 and `active = (0 > 1)`, which is false; the
value pair `[1700000000, "1"]` gives a reading equal to the threshold, which is
inactive. -/
theorem IsActive_strict_witness :
    IsActive (Example.deps (Example.body "") []) (Example.scaler true 200 (Example.body ""))
        Context.Background
      = .ok ((Float64.fin 0).gt (.fin 1))
    ∧ (Float64.fin 0).gt (.fin 1) = false
    ∧ IsActive
        (Example.deps (Example.body (Example.series "[1700000000,\"1\"]"))
          [[.number (.fin 1700000000), .string "1"]])
        (Example.scaler true 200 (Example.body (Example.series "[1700000000,\"1\"]")))
        Context.Background
      = .ok false :=
  ⟨(IsActive_strict _ _ _ (.fin 0)
      ((ExecuteLokiQuery_of_responds _ (Example.responds _ _ _ _) (by decide)).trans
        (by rfl))).1,
    by with_unfolding_all decide,
    (IsActive_strict _ _ _ (.fin 1)
      ((ExecuteLokiQuery_of_responds _ (Example.responds _ _ _ _) (by decide)).trans
        (by with_unfolding_all decide))).2.1 rfl⟩

/-! ## `parseLokiMetadata`: defaults and the activation threshold -/

/-- C13 (counterexample): the four required fields are present and valid, the keys
activationThreshold, cortexOrgID, ignoreNullValues and unsafeSsl are absent, and the
trigger asks for basic authentication without a username; `parseLokiMetadata` returns the
error of `GetAuthConfigs` and no metadata. -/
theorem parseLokiMetadata_fails_on_auth :
    (nonEmptyValue (Example.config "1.0" [("authModes", "basic")]).TriggerMetadata
        lokiServerAddress = some "http://loki:3100/prefix"
      ∧ nonEmptyValue (Example.config "1.0" [("authModes", "basic")]).TriggerMetadata
        lokiQuery = some "sum(rate(app[1m]))"
      ∧ nonEmptyValue (Example.config "1.0" [("authModes", "basic")]).TriggerMetadata
        lokiMetricName = some "lines"
      ∧ nonEmptyValue (Example.config "1.0" [("authModes", "basic")]).TriggerMetadata
        lokiThreshold = some "1.0"
      ∧ Go.ParseFloat "1.0" = .ok (.fin 1))
    ∧ ((Example.config "1.0" [("authModes", "basic")]).TriggerMetadata.lookup
        lokiActivationThreshold = none
      ∧ (Example.config "1.0" [("authModes", "basic")]).TriggerMetadata.lookup
        lokiCortexScopeOrgID = none
      ∧ (Example.config "1.0" [("authModes", "basic")]).TriggerMetadata.lookup
        lokiIgnoreNullValues = none
      ∧ (Example.config "1.0" [("authModes", "basic")]).TriggerMetadata.lookup
        unsafeSsl = none)
    ∧ parseLokiMetadata Example.staticDeps (Example.config "1.0" [("authModes", "basic")])
      = .error "no username given" := by
  with_unfolding_all decide

/-- C13 (amended): when the four required fields are present and valid and the keys
activationThreshold, cortexOrgID, ignoreNullValues and unsafeSsl are absent,
`parseLokiMetadata` succeeds if the call to `GetAuthConfigs` returns without error, with
activationThreshold 0, an empty tenant id, ignoreNullValues true, unsafeSsl false, the
configured serverAddress, query, metricName and threshold, and the authentication that
call returned; if the call returns an error, `parseLokiMetadata` returns that error and
no metadata. -/
theorem parseLokiMetadata_defaults (d : Deps) (config : ScalerConfig) (a q n val : String)
    (t : Float64)
    (ha : nonEmptyValue config.TriggerMetadata lokiServerAddress = some a)
    (hq : nonEmptyValue config.TriggerMetadata lokiQuery = some q)
    (hn : nonEmptyValue config.TriggerMetadata lokiMetricName = some n)
    (hval : nonEmptyValue config.TriggerMetadata lokiThreshold = some val)
    (ht : d.ParseFloat val = .ok t)
    (hact : config.TriggerMetadata.lookup lokiActivationThreshold = none)
    (horg : config.TriggerMetadata.lookup lokiCortexScopeOrgID = none)
    (hign : config.TriggerMetadata.lookup lokiIgnoreNullValues = none)
    (huns : config.TriggerMetadata.lookup unsafeSsl = none) :
    (∀ auth, d.GetAuthConfigs config.TriggerMetadata config.AuthParams = .ok auth →
      parseLokiMetadata d config
        = .ok { serverAddress := a, query := q, metricName := n, threshold := t,
                activationThreshold := .fin 0, cortexOrgID := "", ignoreNullValues := true,
                unsafeSsl := false, lokiAuth := auth, scalerIndex := config.ScalerIndex })
    ∧ (∀ err, d.GetAuthConfigs config.TriggerMetadata config.AuthParams = .error err →
      parseLokiMetadata d config = .error err) := by
  constructor
  · intro auth hauth
    have h := @parseLokiMetadata_ok_of d config a q n val t (.fin 0) true false auth
      ha hq hn hval ht (by simp [hact])
      (by simp [nonEmptyValue_of_lookup_none hign])
      (by simp [nonEmptyValue_of_lookup_none huns]) hauth
    rw [h, nonEmptyValue_of_lookup_none horg]
    rfl
  · intro err herr
    simp [parseLokiMetadata, bind, Except.bind, pure, Except.pure, throw, throwThe,
      MonadExceptOf.throw, ha, hq, hn, hval, ht, hact, herr,
      nonEmptyValue_of_lookup_none horg, nonEmptyValue_of_lookup_none hign,
      nonEmptyValue_of_lookup_none huns]

/-- C13 (amended), at concrete inputs: the four required fields and nothing else give the
defaults; with basic authentication asked for and no username, the error of
`GetAuthConfigs` is returned. -/
theorem parseLokiMetadata_defaults_witness :
    parseLokiMetadata Example.staticDeps (Example.config "1.0" [])
      = .ok { serverAddress := "http://loki:3100/prefix", query := "sum(rate(app[1m]))",
              metricName := "lines", threshold := .fin 1, activationThreshold := .fin 0,
              cortexOrgID := "", ignoreNullValues := true, unsafeSsl := false,
              lokiAuth := none, scalerIndex := 0 }
    ∧ parseLokiMetadata Example.staticDeps
        (Example.config "1.0" [("authModes", " basic")])
      = .error "no username given" :=
  ⟨(parseLokiMetadata_defaults Example.staticDeps (Example.config "1.0" [])
      "http://loki:3100/prefix" "sum(rate(app[1m]))" "lines" "1.0" (.fin 1)
      (by decide) (by decide) (by decide) (by decide) (by with_unfolding_all decide)
      (by decide) (by decide) (by decide) (by decide)).1 none (by decide),
   (parseLokiMetadata_defaults Example.staticDeps
      (Example.config "1.0" [("authModes", " basic")])
      "http://loki:3100/prefix" "sum(rate(app[1m]))" "lines" "1.0" (.fin 1)
      (by decide) (by decide) (by decide) (by decide) (by with_unfolding_all decide)
      (by decide) (by decide) (by decide) (by decide)).2 "no username given" (by decide)⟩

/-- C19: with valid required fields and the activationThreshold key present,
`parseLokiMetadata` returns the "activationThreshold parsing error" when the value does
not parse as a float (the empty string included, which `strconv.ParseFloat` rejects);
when the value parses as `x`, every metadata it returns has activationThreshold `x`, and
it does return one, with the defaults for cortexOrgID, ignoreNullValues and unsafeSsl,
when each of these three keys is absent or carries the empty string and `GetAuthConfigs`
returns without error. -/
theorem parseLokiMetadata_activationThreshold (d : Deps) (config : ScalerConfig)
    (a q n val v : String) (t : Float64)
    (ha : nonEmptyValue config.TriggerMetadata lokiServerAddress = some a)
    (hq : nonEmptyValue config.TriggerMetadata lokiQuery = some q)
    (hn : nonEmptyValue config.TriggerMetadata lokiMetricName = some n)
    (hval : nonEmptyValue config.TriggerMetadata lokiThreshold = some val)
    (ht : d.ParseFloat val = .ok t)
    (hact : config.TriggerMetadata.lookup lokiActivationThreshold = some v) :
    (∀ err, d.ParseFloat v = .error err →
      parseLokiMetadata d config = .error ("activationThreshold parsing error " ++ err))
    ∧ (∀ x m, d.ParseFloat v = .ok x → parseLokiMetadata d config = .ok m →
      m.activationThreshold = x)
    ∧ (∀ x auth, d.ParseFloat v = .ok x →
      (config.TriggerMetadata.lookup lokiCortexScopeOrgID = none
        ∨ config.TriggerMetadata.lookup lokiCortexScopeOrgID = some "") →
      (config.TriggerMetadata.lookup lokiIgnoreNullValues = none
        ∨ config.TriggerMetadata.lookup lokiIgnoreNullValues = some "") →
      (config.TriggerMetadata.lookup unsafeSsl = none
        ∨ config.TriggerMetadata.lookup unsafeSsl = some "") →
      d.GetAuthConfigs config.TriggerMetadata config.AuthParams = .ok auth →
      parseLokiMetadata d config
        = .ok { serverAddress := a, query := q, metricName := n, threshold := t,
                activationThreshold := x, cortexOrgID := "", ignoreNullValues := true,
                unsafeSsl := false, lokiAuth := auth,
                scalerIndex := config.ScalerIndex }) := by
  refine ⟨?_, ?_, ?_⟩
  · intro err herr
    simp [parseLokiMetadata, bind, Except.bind, pure, Except.pure, throw, throwThe,
      MonadExceptOf.throw, ha, hq, hn, hval, ht, hact, herr]
  · intro x m hx hm
    have h5 := (parseLokiMetadata_ok_inv hm).2.2.2.2.1
    rw [hact] at h5
    simp only [hx, Except.ok.injEq] at h5
    exact h5.symm
  · intro x auth hx horg hign huns hauth
    have horg' : nonEmptyValue config.TriggerMetadata lokiCortexScopeOrgID = none :=
      horg.elim nonEmptyValue_of_lookup_none nonEmptyValue_of_lookup_empty
    have hign' : nonEmptyValue config.TriggerMetadata lokiIgnoreNullValues = none :=
      hign.elim nonEmptyValue_of_lookup_none nonEmptyValue_of_lookup_empty
    have huns' : nonEmptyValue config.TriggerMetadata unsafeSsl = none :=
      huns.elim nonEmptyValue_of_lookup_none nonEmptyValue_of_lookup_empty
    have h := @parseLokiMetadata_ok_of d config a q n val t x true false auth
      ha hq hn hval ht (by simp [hact, hx]) (by simp [hign']) (by simp [huns']) hauth
    rw [h, horg']
    rfl

/-- C19, at concrete inputs: activationThreshold set to the empty string is an error;
activationThreshold "2.5" next to empty cortexOrgID, ignoreNullValues and unsafeSsl is
stored as 2.5 and the three other fields take their defaults. -/
theorem parseLokiMetadata_activationThreshold_witness :
    parseLokiMetadata Example.staticDeps
        (Example.config "1.0" [("activationThreshold", "")])
      = .error ("activationThreshold parsing error "
          ++ "strconv.ParseFloat: parsing \"\": invalid syntax")
    ∧ parseLokiMetadata Example.staticDeps
        (Example.config "1.0" [("activationThreshold", "2.5"), ("cortexOrgID", ""),
          ("ignoreNullValues", ""), ("unsafeSsl", "")])
      = .ok { serverAddress := "http://loki:3100/prefix", query := "sum(rate(app[1m]))",
              metricName := "lines", threshold := .fin 1, activationThreshold := .fin (5 / 2),
              cortexOrgID := "", ignoreNullValues := true, unsafeSsl := false,
              lokiAuth := none, scalerIndex := 0 } :=
  ⟨(parseLokiMetadata_activationThreshold Example.staticDeps
      (Example.config "1.0" [("activationThreshold", "")])
      "http://loki:3100/prefix" "sum(rate(app[1m]))" "lines" "1.0" "" (.fin 1)
      (by decide) (by decide) (by decide) (by decide) (by with_unfolding_all decide)
      (by decide)).1 _ (by decide),
   (parseLokiMetadata_activationThreshold Example.staticDeps
      (Example.config "1.0" [("activationThreshold", "2.5"), ("cortexOrgID", ""),
        ("ignoreNullValues", ""), ("unsafeSsl", "")])
      "http://loki:3100/prefix" "sum(rate(app[1m]))" "lines" "1.0" "2.5" (.fin 1)
      (by decide) (by decide) (by decide) (by decide) (by with_unfolding_all decide)
      (by decide)).2.2 (.fin (5 / 2)) none (by with_unfolding_all decide)
      (Or.inr (by decide)) (Or.inr (by decide)) (Or.inr (by decide)) (by decide)⟩

/-! ## `Read` -/

/-- C14: when the handler has a client and the access call succeeds with a payload
carrying the bytes `data` and the checksum `c`, `Read` returns `data` with no error if
`c` is the CRC-32 of `data` under the Castagnoli polynomial, and otherwise returns the
empty string together with the corruption error; so it returns `data` without error
exactly when the checksums agree. -/
theorem Read_checksum
    (access : SecretManagerClient → Context → String → Except String AccessSecretVersionResponse)
    (vh : GCPSecretManagerHandler) (secretID secretVersion : String)
    (client : SecretManagerClient) (resp : AccessSecretVersionResponse)
    (data : List UInt8) (c : Int)
    (hclient : vh.gcpSecretsManagerClient = some client)
    (haccess : access client vh.ctx (secretVersionName vh.gcpProjectID secretID secretVersion)
      = .ok resp)
    (hpayload : resp.Payload = some { Data := data, DataCrc32C := some c }) :
    (c = (crc32.Checksum data crc32.Castagnoli : Nat) →
      GCPSecretManagerHandler.Read access vh secretID secretVersion = .ok (data, none))
    ∧ (c ≠ (crc32.Checksum data crc32.Castagnoli : Nat) →
      GCPSecretManagerHandler.Read access vh secretID secretVersion
        = .ok ([], some "secret payload data corruption detected"))
    ∧ (GCPSecretManagerHandler.Read access vh secretID secretVersion = .ok (data, none)
        ↔ c = (crc32.Checksum data crc32.Castagnoli : Nat)) := by
  unfold secretVersionName at haccess
  have hmatch : c = (crc32.Checksum data crc32.Castagnoli : Nat) →
      GCPSecretManagerHandler.Read access vh secretID secretVersion = .ok (data, none) := by
    intro hc
    simp [GCPSecretManagerHandler.Read, hclient, haccess, hpayload, hc]
  have hmismatch : c ≠ (crc32.Checksum data crc32.Castagnoli : Nat) →
      GCPSecretManagerHandler.Read access vh secretID secretVersion
        = .ok ([], some "secret payload data corruption detected") := by
    intro hc
    have hc' : ¬ ((crc32.Checksum data crc32.Castagnoli : Nat) : Int) = c :=
      fun h => hc h.symm
    simp [GCPSecretManagerHandler.Read, hclient, haccess, hpayload, hc']
  refine ⟨hmatch, hmismatch, ?_, hmatch⟩
  intro hread
  by_contra hc
  rw [hmismatch hc] at hread
  simp at hread

/-- C14, at concrete inputs: the payload `123456789` is returned when it comes with its
CRC-32C `0xE3069283`, and withheld, with the corruption error, when it comes with the
checksum 0. -/
theorem Read_checksum_witness :
    GCPSecretManagerHandler.Read (Example.access 0xE3069283) Example.readyHandler
        "db-password" "latest"
      = .ok (Example.payload, none)
    ∧ GCPSecretManagerHandler.Read (Example.access 0) Example.readyHandler
        "db-password" "latest"
      = .ok ([], some "secret payload data corruption detected") :=
  ⟨(Read_checksum (Example.access 0xE3069283) Example.readyHandler "db-password" "latest"
      { id := 1 } { Payload := some { Data := Example.payload, DataCrc32C := some 0xE3069283 } }
      Example.payload 0xE3069283 rfl (by decide) rfl).1
      (by set_option maxRecDepth 100000 in decide),
   (Read_checksum (Example.access 0) Example.readyHandler "db-password" "latest"
      { id := 1 } { Payload := some { Data := Example.payload, DataCrc32C := some 0 } }
      Example.payload 0 rfl (by decide) rfl).2.1
      (by set_option maxRecDepth 100000 in decide)⟩

/-! ## `Initialize` -/

/-- C15: for every pod identity provider token other than the empty string, "none" and
the gcp token, `Initialize` returns the error "key vault does not support pod identity
provider - " followed by the rendering of the pod identity, and leaves the handler, its
client included, as it was; as `fmt` renders the pod identity with the provider token as
its first field, the message names the token. -/
theorem Initialize_unsupported_provider (g : GCPDeps) (vh : GCPSecretManagerHandler)
    (triggerNamespace : String) (p : AuthPodIdentity)
    (hp : vh.gcpSecretsManager.PodIdentity = some p)
    (hempty : p.Provider ≠ "") (hnone : p.Provider ≠ PodIdentityProviderNone)
    (hgcp : p.Provider ≠ PodIdentityProviderGCP) :
    GCPSecretManagerHandler.Initialize g vh triggerNamespace
      = (vh, some ("key vault does not support pod identity provider - "
          ++ g.formatPodIdentity p))
    ∧ ∀ rest, g.formatPodIdentity p = "&\x7b" ++ p.Provider ++ rest →
        ∃ before after, (GCPSecretManagerHandler.Initialize g vh triggerNamespace).2
          = some (before ++ p.Provider ++ after) := by
  have h : GCPSecretManagerHandler.Initialize g vh triggerNamespace
      = (vh, some ("key vault does not support pod identity provider - "
          ++ g.formatPodIdentity p)) := by
    simp [GCPSecretManagerHandler.Initialize, hp, hempty, hnone, hgcp]
  refine ⟨h, ?_⟩
  intro rest hrest
  refine ⟨"key vault does not support pod identity provider - " ++ "&\x7b", rest, ?_⟩
  rw [h, hrest]
  simp only [String.append_assoc]

/-- C15, at a concrete input: the provider token `azure`. -/
theorem Initialize_unsupported_provider_witness :
    GCPSecretManagerHandler.Initialize Example.gcpDeps
        (Example.handler (some { Provider := "azure" }) true) "default"
      = (Example.handler (some { Provider := "azure" }) true,
         some ("key vault does not support pod identity provider - " ++ "&\x7bazure\x7d"))
    ∧ ∃ before after, (GCPSecretManagerHandler.Initialize Example.gcpDeps
        (Example.handler (some { Provider := "azure" }) true) "default").2
          = some (before ++ "azure" ++ after) :=
  ⟨(Initialize_unsupported_provider Example.gcpDeps
      (Example.handler (some { Provider := "azure" }) true) "default" { Provider := "azure" }
      rfl (by decide) (by decide) (by decide)).1,
   (Initialize_unsupported_provider Example.gcpDeps
      (Example.handler (some { Provider := "azure" }) true) "default" { Provider := "azure" }
      rfl (by decide) (by decide) (by decide)).2 "\x7d" rfl⟩

/-- C16: when the pod identity is nil or its provider is the empty string or "none", and
either no credentials are configured or the secret lookup for the referenced name and key
gives the empty string, `Initialize` returns the error "clientSecret is expected when not
using a pod identity provider" and leaves the handler as it was, whatever JSON decoding,
credential derivation and client construction would do. -/
theorem Initialize_missing_client_secret (g : GCPDeps) (vh : GCPSecretManagerHandler)
    (triggerNamespace : String)
    (hprovider : vh.gcpSecretsManager.PodIdentity = none
      ∨ ∃ p, vh.gcpSecretsManager.PodIdentity = some p
          ∧ (p.Provider = "" ∨ p.Provider = PodIdentityProviderNone))
    (hmissing : vh.gcpSecretsManager.Credentials = none
      ∨ ∃ c, vh.gcpSecretsManager.Credentials = some c
          ∧ clientSecretOf g vh triggerNamespace c = "") :
    GCPSecretManagerHandler.Initialize g vh triggerNamespace
      = (vh, some "clientSecret is expected when not using a pod identity provider") := by
  unfold clientSecretOf at hmissing
  rcases hprovider with hp | ⟨p, hp, hprov⟩ <;>
    rcases hmissing with hc | ⟨c, hc, hsecret⟩
  · simp [GCPSecretManagerHandler.Initialize, hp, hc]
  · simp [GCPSecretManagerHandler.Initialize, hp, hc, hsecret]
  · simp [GCPSecretManagerHandler.Initialize, hp, hc, hprov]
  · simp [GCPSecretManagerHandler.Initialize, hp, hc, hsecret, hprov]

/-- C16, at concrete inputs: a nil pod identity without credentials, and the provider
"none" with a reference that the namespace `other` does not resolve. -/
theorem Initialize_missing_client_secret_witness :
    GCPSecretManagerHandler.Initialize Example.gcpDeps (Example.handler none false) "default"
      = (Example.handler none false,
         some "clientSecret is expected when not using a pod identity provider")
    ∧ GCPSecretManagerHandler.Initialize Example.gcpDeps
        (Example.handler (some { Provider := "none" }) true) "other"
      = (Example.handler (some { Provider := "none" }) true,
         some "clientSecret is expected when not using a pod identity provider") :=
  ⟨Initialize_missing_client_secret Example.gcpDeps (Example.handler none false) "default"
      (Or.inl rfl) (Or.inl rfl),
   Initialize_missing_client_secret Example.gcpDeps
      (Example.handler (some { Provider := "none" }) true) "other"
      (Or.inr ⟨{ Provider := "none" }, rfl, Or.inr rfl⟩)
      (Or.inr ⟨{ ClientSecret := { ValueFrom := { SecretKeyRef :=
        { Name := "gcp-key", Key := "key.json" } } } }, rfl, by decide⟩)⟩

/-- C20 (counterexample): with no pod identity provider and a client secret whose JSON
parses, naming the project `my-project`, but from which no credentials can be built,
`Initialize` returns an error and the handler's resolved project id, empty before the
call, is `my-project` after it. -/
theorem Initialize_failure_changes_project_id :
    (GCPSecretManagerHandler.Initialize Example.gcpDeps (Example.handler none true)
        "default").2
      = some ("failed to get credentials from json, "
          ++ "missing \x27type\x27 field in credentials")
    ∧ (Example.handler none true).gcpProjectID = ""
    ∧ (GCPSecretManagerHandler.Initialize Example.gcpDeps (Example.handler none true)
        "default").1.gcpProjectID = "my-project" := by
  decide

/-- C20 (amended): `Initialize` leaves the handler exactly as it was only when it fails
before it assigns the project id.  With no pod identity provider: missing credentials, an
empty secret and a JSON key that does not parse return their error and the unchanged
handler; when the key parses, a failure to build credentials returns the handler with its
resolved project id replaced by the project id of the key, and a failure to construct the
client returns it with that project id and with the client the constructor returned.
With the gcp provider: an empty resolved project id returns the unchanged handler, and
otherwise a failure to construct the client returns the handler with the configured
project id and the client the constructor returned.  Any other provider returns the
unchanged handler.  Every error `Initialize` returns is one of these failures. -/
theorem Initialize_failure_state (g : GCPDeps) (vh : GCPSecretManagerHandler)
    (triggerNamespace : String) :
    (noProvider vh →
      (vh.gcpSecretsManager.Credentials = none →
        GCPSecretManagerHandler.Initialize g vh triggerNamespace
          = (vh, some "clientSecret is expected when not using a pod identity provider"))
      ∧ ∀ c, vh.gcpSecretsManager.Credentials = some c →
        (clientSecretOf g vh triggerNamespace c = "" →
          GCPSecretManagerHandler.Initialize g vh triggerNamespace
            = (vh, some "clientSecret is expected when not using a pod identity provider"))
        ∧ (clientSecretOf g vh triggerNamespace c ≠ "" →
          (∀ err, g.UnmarshalProjectID (clientSecretOf g vh triggerNamespace c) = .error err →
            GCPSecretManagerHandler.Initialize g vh triggerNamespace
              = (vh, some ("failed to unmarshal json key, " ++ err)))
          ∧ ∀ id, g.UnmarshalProjectID (clientSecretOf g vh triggerNamespace c) = .ok id →
            (∀ err,
              g.CredentialsFromJSON vh.ctx (clientSecretOf g vh triggerNamespace c)
                = .error err →
              GCPSecretManagerHandler.Initialize g vh triggerNamespace
                = ({ vh with gcpProjectID := id },
                   some ("failed to get credentials from json, " ++ err)))
            ∧ ∀ credentials client err,
              g.CredentialsFromJSON vh.ctx (clientSecretOf g vh triggerNamespace c)
                = .ok credentials →
              g.NewClient vh.ctx (some credentials) = (client, some err) →
              GCPSecretManagerHandler.Initialize g vh triggerNamespace
                = ({ vh with gcpProjectID := id, gcpSecretsManagerClient := client },
                   some ("failed to create secretmanager client, " ++ err))))
    ∧ ((podIdentityOf vh).Provider = PodIdentityProviderGCP →
      (vh.gcpProjectID = "" →
        GCPSecretManagerHandler.Initialize g vh triggerNamespace
          = (vh, some
              "gcp project id needs to be provided for using the gcp pod identity, <nil>"))
      ∧ (vh.gcpProjectID ≠ "" → ∀ client err, g.NewClient vh.ctx none = (client, some err) →
        GCPSecretManagerHandler.Initialize g vh triggerNamespace
          = ({ vh with gcpProjectID := vh.gcpSecretsManager.GCPProjectID,
                       gcpSecretsManagerClient := client },
             some ("failed to create secretmanager client: " ++ err))))
    ∧ (¬ noProvider vh → (podIdentityOf vh).Provider ≠ PodIdentityProviderGCP →
      GCPSecretManagerHandler.Initialize g vh triggerNamespace
        = (vh, some ("key vault does not support pod identity provider - "
            ++ g.formatPodIdentity (podIdentityOf vh))))
    ∧ (∀ vh' e, GCPSecretManagerHandler.Initialize g vh triggerNamespace = (vh', some e) →
      (noProvider vh
        ∧ (vh.gcpSecretsManager.Credentials = none
          ∨ ∃ c, vh.gcpSecretsManager.Credentials = some c
            ∧ (clientSecretOf g vh triggerNamespace c = ""
              ∨ (∃ err, g.UnmarshalProjectID (clientSecretOf g vh triggerNamespace c)
                  = .error err)
              ∨ ∃ id, g.UnmarshalProjectID (clientSecretOf g vh triggerNamespace c) = .ok id
                ∧ ((∃ err,
                    g.CredentialsFromJSON vh.ctx (clientSecretOf g vh triggerNamespace c)
                      = .error err)
                  ∨ ∃ credentials client err,
                    g.CredentialsFromJSON vh.ctx (clientSecretOf g vh triggerNamespace c)
                      = .ok credentials
                    ∧ g.NewClient vh.ctx (some credentials) = (client, some err)))))
      ∨ ((podIdentityOf vh).Provider = PodIdentityProviderGCP
        ∧ (vh.gcpProjectID = ""
          ∨ ∃ client err, g.NewClient vh.ctx none = (client, some err)))
      ∨ (¬ noProvider vh ∧ (podIdentityOf vh).Provider ≠ PodIdentityProviderGCP)) := by
  have hinit := Initialize_eq g vh triggerNamespace
  refine ⟨?_, ?_, ?_, ?_⟩
  · intro hno
    have hno' : (podIdentityOf vh).Provider = ""
        ∨ (podIdentityOf vh).Provider = PodIdentityProviderNone := hno
    refine ⟨?_, ?_⟩
    · intro hc
      rw [hinit]
      simp [hno', hc]
    · intro c hc
      refine ⟨?_, ?_⟩
      · intro hs
        rw [hinit]
        simp [hno', hc, hs]
      · intro hs
        refine ⟨?_, ?_⟩
        · intro err he
          rw [hinit]
          simp [hno', hc, hs, he]
        · intro id hid
          refine ⟨?_, ?_⟩
          · intro err he
            rw [hinit]
            simp [hno', hc, hs, hid, he]
          · intro credentials client err hcr hnew
            rw [hinit]
            simp [hno', hc, hs, hid, hcr, hnew]
  · intro hg
    have hno' : ¬ ((podIdentityOf vh).Provider = ""
        ∨ (podIdentityOf vh).Provider = PodIdentityProviderNone) := by
      rw [hg]
      decide
    refine ⟨?_, ?_⟩
    · intro hid
      rw [hinit, if_neg hno', if_pos hg, if_pos hid]
    · intro hid client err hnew
      rw [hinit, if_neg hno', if_pos hg, if_neg hid, hnew]
  · intro hno hg
    have hno' : ¬ ((podIdentityOf vh).Provider = ""
        ∨ (podIdentityOf vh).Provider = PodIdentityProviderNone) := hno
    rw [hinit, if_neg hno', if_neg hg]
  · intro vh' e h
    rw [hinit] at h
    by_cases hno : noProvider vh
    · have hno' : (podIdentityOf vh).Provider = ""
          ∨ (podIdentityOf vh).Provider = PodIdentityProviderNone := hno
      refine Or.inl ⟨hno, ?_⟩
      rw [if_pos hno'] at h
      cases hc : vh.gcpSecretsManager.Credentials with
      | none => exact Or.inl rfl
      | some c =>
        refine Or.inr ⟨c, rfl, ?_⟩
        by_cases hs : clientSecretOf g vh triggerNamespace c = ""
        · exact Or.inl hs
        · cases hu : g.UnmarshalProjectID (clientSecretOf g vh triggerNamespace c) with
          | error err => exact Or.inr (Or.inl ⟨err, rfl⟩)
          | ok id =>
            refine Or.inr (Or.inr ⟨id, rfl, ?_⟩)
            cases hcr : g.CredentialsFromJSON vh.ctx (clientSecretOf g vh triggerNamespace c) with
            | error err => exact Or.inl ⟨err, rfl⟩
            | ok credentials =>
              refine Or.inr ⟨credentials, ?_⟩
              rcases hnew : g.NewClient vh.ctx (some credentials) with ⟨client, _ | err⟩
              · simp [hc, hs, hu, hcr, hnew] at h
              · exact ⟨client, err, rfl, rfl⟩
    · have hno' : ¬ ((podIdentityOf vh).Provider = ""
          ∨ (podIdentityOf vh).Provider = PodIdentityProviderNone) := hno
      by_cases hg : (podIdentityOf vh).Provider = PodIdentityProviderGCP
      · refine Or.inr (Or.inl ⟨hg, ?_⟩)
        rw [if_neg hno', if_pos hg] at h
        by_cases hid : vh.gcpProjectID = ""
        · exact Or.inl hid
        · refine Or.inr ?_
          rcases hnew : g.NewClient vh.ctx none with ⟨client, _ | err⟩
          · simp [hid, hnew] at h
          · exact ⟨client, err, rfl⟩
      · exact Or.inr (Or.inr ⟨hno, hg⟩)

/-- C20 (amended), at the input of the counterexample: the key parses, no credentials can
be built from it, and the handler returned differs from the one before the call in its
resolved project id, now `my-project`. -/
theorem Initialize_failure_state_witness :
    GCPSecretManagerHandler.Initialize Example.gcpDeps (Example.handler none true) "default"
      = ({ Example.handler none true with gcpProjectID := "my-project" },
         some ("failed to get credentials from json, "
           ++ "missing \x27type\x27 field in credentials")) :=
  (((((Initialize_failure_state Example.gcpDeps (Example.handler none true) "default").1
      (Or.inl rfl)).2
      { ClientSecret := { ValueFrom := { SecretKeyRef :=
        { Name := "gcp-key", Key := "key.json" } } } } rfl).2 (by decide)).2
      "my-project" (by decide)).1 "missing \x27type\x27 field in credentials" rfl


/-! ## `ExecuteLokiQuery`: the value assertion and the context -/

/-- C17 (the code departs from the claim): for every 2xx response that decodes to exactly
one series whose value list has at least 2 elements and whose element at index 1 is
neither null nor a string, `ExecuteLokiQuery` panics on the type assertion
`val.(string)`; it returns neither a reading nor an error. -/
theorem ExecuteLokiQuery_non_string_panics (d : Deps) (s : lokiScaler) (ctx : Context)
    (status : Int) (result : lokiQueryResult) (series : lokiQueryResultSeries)
    (val : JSONValue)
    (h : Responds d s status result) (h2xx : 200 ≤ status ∧ status ≤ 299)
    (hone : result.Data.Result = [series]) (hlen : 2 ≤ series.Value.length)
    (hval : series.Value[1]? = some val) (hnull : val ≠ .null)
    (hstring : ∀ str, val ≠ .string str) :
    ExecuteLokiQuery d s ctx
      = .panic ("interface conversion: interface {} is " ++ val.goType ++ ", not string") := by
  rw [ExecuteLokiQuery_of_responds ctx h h2xx]
  have h0 : series.Value.length ≠ 0 := by omega
  have h1 : ¬ series.Value.length < 2 := by omega
  cases val with
  | null => exact absurd rfl hnull
  | string str => exact absurd rfl (hstring str)
  | bool b => simp [ExecuteLokiQuery.reading, hone, h0, h1, hval]
  | number f => simp [ExecuteLokiQuery.reading, hone, h0, h1, hval]
  | array elems => simp [ExecuteLokiQuery.reading, hone, h0, h1, hval]
  | object fields => simp [ExecuteLokiQuery.reading, hone, h0, h1, hval]

/-- C17, at a concrete input: a 200 response with the value pair `[1700000000, 1.5]`,
whose second element is a JSON number. -/
theorem ExecuteLokiQuery_non_string_panics_witness :
    ExecuteLokiQuery
        (Example.deps (Example.body (Example.series "[1700000000,1.5]"))
          [[.number (.fin 1700000000), .number (.fin (3 / 2))]])
        (Example.scaler true 200 (Example.body (Example.series "[1700000000,1.5]")))
        Context.Background
      = .panic ("interface conversion: interface {} is " ++ "float64" ++ ", not string") :=
  ExecuteLokiQuery_non_string_panics _ _ _ 200
    (Example.result [[.number (.fin 1700000000), .number (.fin (3 / 2))]])
    { Value := [.number (.fin 1700000000), .number (.fin (3 / 2))] }
    (.number (.fin (3 / 2)))
    (Example.responds _ _ _ _) (by decide) rfl (by decide) rfl
    (fun hc => JSONValue.noConfusion hc) (fun _ hc => JSONValue.noConfusion hc)

/-- C18 (the code departs from the claim): the outcome of `ExecuteLokiQuery` is the same
for every context its caller passes, the request it builds is made with
`context.Background()`, and in the example its context is the background context, not the
context of the caller. -/
theorem ExecuteLokiQuery_ignores_ctx :
    (∀ (d : Deps) (s : lokiScaler) (ctx : Context),
      ExecuteLokiQuery d s ctx = ExecuteLokiQuery d s Context.Background)
    ∧ (∀ (d : Deps) (s : lokiScaler) (req : Request),
      ExecuteLokiQuery.request d s = .ok req →
      ∃ url req0, d.NewRequestWithContext Context.Background "GET" url = .ok req0
        ∧ req.ctx = req0.ctx)
    ∧ (ExecuteLokiQuery.request Example.staticDeps (Example.scaler true 200 "")).map
        (fun req => req.ctx) = .ok Context.Background
    ∧ Context.Background ≠ Context.ofCaller 1 := by
  refine ⟨fun d s ctx => rfl, ?_, by decide, by decide⟩
  intro d s req hreq
  simp only [ExecuteLokiQuery.request] at hreq
  split at hreq
  · simp at hreq
  · rename_i u hu
    split at hreq
    · simp at hreq
    · rename_i req0 hreq0
      refine ⟨_, req0, hreq0, ?_⟩
      simp only [Except.ok.injEq] at hreq
      subst hreq
      split <;> split <;> (try split) <;> simp

end Keda
